import Mathlib

/-!
Verification of the X68000-emulator CPU core (src/cpu of the repository):
a shallow embedding of the opcode table (opcode.rs), the branch-offset
decoder (util.rs), the big-endian bus helpers (bus_trait.rs), the
effective-address unit and interpreter step (cpu.rs), and the byte-length
component of the disassembler (disasm.rs), together with theorems settling
the specification claims.

Machine integers are modelled as Nat with explicit reductions:
u8 casts as `% 256`, u16 as `% 65536`, u32 wrapping arithmetic as
`% 4294967296` (`mask32`).  Signed reinterpretation casts (`as i8/i16/i32`)
become `toI8/toI16/toI32 : Nat → Int`, and a cast back to u32 is
`intToU32`.  Rust code that panics is modelled with `Except Fault`.
-/

/-- 32-bit wrap, the release-mode behaviour of u32 arithmetic. -/
def mask32 (x : Nat) : Nat := x % 4294967296

/-- Reinterpret the low 8 bits as a signed value (Rust `as i8`). -/
def toI8 (x : Nat) : Int :=
  if x % 256 < 128 then (x % 256 : Nat) else (x % 256 : Nat) - 256

/-- Reinterpret the low 16 bits as a signed value (Rust `as i16`). -/
def toI16 (x : Nat) : Int :=
  if x % 65536 < 32768 then (x % 65536 : Nat) else (x % 65536 : Nat) - 65536

/-- Reinterpret the low 32 bits as a signed value (Rust `as i32`). -/
def toI32 (x : Nat) : Int :=
  if x % 4294967296 < 2147483648 then (x % 4294967296 : Nat)
  else (x % 4294967296 : Nat) - 4294967296

/-- Cast a signed value to u32 (two's complement, Rust `as u32`). -/
def intToU32 (x : Int) : Nat := (x % 4294967296).toNat

/-- Cast a signed value to u16 (two's complement, Rust `as u16`). -/
def intToU16 (x : Int) : Nat := (x % 65536).toNat

/-- Wrapping subtraction at width `w` bits for operands already `< 2^w`
(Rust `wrapping_sub` on uN). -/
def wsub (w x y : Nat) : Nat := (x + (2 ^ w - y % 2 ^ w)) % 2 ^ w

/-- The memory bus: a byte value per address.  This models a flat bus
implementing the `BusTrait` contract of bus_trait.rs; `read8` masks to a
byte so junk beyond 8 bits in the backing function is never observed. -/
def Mem : Type := Nat → Nat

/-- BusTrait::read8. -/
def read8 (m : Mem) (adr : Nat) : Nat := m adr % 256

/-- BusTrait::write8 (the value is a Byte at every call site). -/
def write8 (m : Mem) (adr v : Nat) : Mem := Function.update m adr v

/-- BusTrait::read16: big-endian composition `(d0 << 8) | d1`.
Address increments are u32 additions, hence `mask32`. -/
def read16 (m : Mem) (adr : Nat) : Nat :=
  (read8 m adr) <<< 8 ||| read8 m (mask32 (adr + 1))

/-- BusTrait::read32: big-endian composition of four bytes. -/
def read32 (m : Mem) (adr : Nat) : Nat :=
  (read8 m adr) <<< 24 ||| (read8 m (mask32 (adr + 1))) <<< 16 |||
    (read8 m (mask32 (adr + 2))) <<< 8 ||| read8 m (mask32 (adr + 3))

/-- BusTrait::write16: big-endian decomposition, `as Byte` casts are `% 256`. -/
def write16 (m : Mem) (adr v : Nat) : Mem :=
  write8 (write8 m adr ((v >>> 8) % 256)) (mask32 (adr + 1)) (v % 256)

/-- BusTrait::write32: big-endian decomposition of four bytes. -/
def write32 (m : Mem) (adr v : Nat) : Mem :=
  write8 (write8 (write8 (write8 m adr ((v >>> 24) % 256))
    (mask32 (adr + 1)) ((v >>> 16) % 256))
    (mask32 (adr + 2)) ((v >>> 8) % 256))
    (mask32 (adr + 3)) (v % 256)

/-- The opcode tags of opcode.rs (enum Opcode). -/
inductive Opcode where
  | Unknown
  | Nop
  | MoveByte
  | MoveLong
  | MoveWord
  | Moveq
  | MovemFrom
  | MovemTo
  | MoveToSrIm
  | MoveToSr
  | MoveFromSr
  | LeaDirect
  | LeaOffset
  | LeaOffsetD
  | LeaOffsetPc
  | ClrByte
  | ClrWord
  | ClrLong
  | Swap
  | CmpByte
  | CmpWord
  | CmpLong
  | CmpiByte
  | CmpiWord
  | CmpaLong
  | CmpmByte
  | Cmp2Byte
  | TstByte
  | TstWord
  | TstLong
  | BtstIm
  | BclrIm
  | Bset
  | BsetIm
  | AddByte
  | AddWord
  | AddLong
  | AddiByte
  | AddiWord
  | AddaLong
  | AddqByte
  | AddqWord
  | AddqLong
  | SubByte
  | SubWord
  | SubiByte
  | SubaLong
  | SubqWord
  | SubqLong
  | MuluWord
  | AndByte
  | AndWord
  | AndLong
  | AndiWord
  | OrByte
  | OrWord
  | OriByte
  | OriWord
  | EorByte
  | EoriByte
  | EoriWord
  | AslImByte
  | AslImWord
  | AslImLong
  | LsrImByte
  | LsrImWord
  | LslImWord
  | RorImWord
  | RorImLong
  | RolWord
  | RolImByte
  | ExtWord
  | Bra
  | Bcc
  | Bcs
  | Bne
  | Beq
  | Bpl
  | Bmi
  | Bge
  | Blt
  | Bgt
  | Ble
  | Dbra
  | Bsr
  | JsrA
  | Rts
  | Rte
  | Trap
  | Reset
deriving DecidableEq

/-- A rule of the table builder: `mask_inst` covers every 16-bit `x` with
`x &&& mask = value` (each rule's `value` has no bits outside `mask`, see
`instRules_wellFormed`), `range_inst` covers a half-open range, and a
singleton assignment covers one opcode. -/
inductive RulePat where
  | mask (m v : Nat)
  | irange (lo hi : Nat)
  | single (v : Nat)
deriving DecidableEq

/-- Does a rule pattern cover opcode `x`? -/
def RulePat.hits : RulePat → Nat → Bool
  | .mask m v, x => x &&& m == v
  | .irange lo hi, x => decide (lo ≤ x) && decide (x < hi)
  | .single v, x => x == v

/-- The addq/subq block of the initialiser: `for i in 0..8` issuing five
`range_inst` calls per iteration, in source order. -/
def addqSubqRules : List (RulePat × Opcode) :=
  (List.range 8).foldr (fun i acc =>
    [(RulePat.irange (0x5000 + i * 0x0200) (0x503a + i * 0x0200), Opcode.AddqByte),
     (RulePat.irange (0x5040 + i * 0x0200) (0x507a + i * 0x0200), Opcode.AddqWord),
     (RulePat.irange (0x5080 + i * 0x0200) (0x50ba + i * 0x0200), Opcode.AddqLong),
     (RulePat.irange (0x5140 + i * 0x0200) (0x517a + i * 0x0200), Opcode.SubqWord),
     (RulePat.irange (0x5180 + i * 0x0200) (0x51ba + i * 0x0200), Opcode.SubqLong)]
      ++ acc) []

/-- The full rule list of the INST initialiser of opcode.rs, in declaration
order.  Later rules overwrite earlier ones. -/
def instRules : List (RulePat × Opcode) :=
  [(RulePat.mask 0xffc0 0x0000, Opcode.OriByte),
   (RulePat.mask 0xffc0 0x0040, Opcode.OriWord),
   (RulePat.mask 0xf1c0 0x01c0, Opcode.Bset),
   (RulePat.mask 0xffc0 0x0240, Opcode.AndiWord),
   (RulePat.mask 0xffc0 0x0400, Opcode.SubiByte),
   (RulePat.mask 0xffc0 0x0600, Opcode.AddiByte),
   (RulePat.mask 0xffc0 0x0640, Opcode.AddiWord),
   (RulePat.mask 0xffc0 0x0800, Opcode.BtstIm),
   (RulePat.mask 0xffc0 0x0880, Opcode.BclrIm),
   (RulePat.mask 0xffc0 0x08c0, Opcode.BsetIm),
   (RulePat.mask 0xffc0 0x0a00, Opcode.EoriByte),
   (RulePat.mask 0xffc0 0x0a40, Opcode.EoriWord),
   (RulePat.mask 0xffc0 0x0c00, Opcode.CmpiByte),
   (RulePat.mask 0xffc0 0x0c40, Opcode.CmpiWord),
   (RulePat.mask 0xf000 0x1000, Opcode.MoveByte),
   (RulePat.mask 0xf000 0x2000, Opcode.MoveLong),
   (RulePat.mask 0xf000 0x3000, Opcode.MoveWord),
   (RulePat.mask 0xffc0 0x40c0, Opcode.MoveFromSr),
   (RulePat.mask 0xf1f8 0x41e8, Opcode.LeaOffset),
   (RulePat.mask 0xf1f8 0x41f0, Opcode.LeaOffsetD),
   (RulePat.mask 0xf1ff 0x41f9, Opcode.LeaDirect),
   (RulePat.mask 0xf1ff 0x41fa, Opcode.LeaOffsetPc),
   (RulePat.single 0x46fc, Opcode.MoveToSrIm),
   (RulePat.single 0x4e70, Opcode.Reset),
   (RulePat.single 0x4e71, Opcode.Nop),
   (RulePat.single 0x4e73, Opcode.Rte),
   (RulePat.single 0x4e75, Opcode.Rts),
   (RulePat.mask 0xffc0 0x4200, Opcode.ClrByte),
   (RulePat.mask 0xffc0 0x4240, Opcode.ClrWord),
   (RulePat.mask 0xffc0 0x4280, Opcode.ClrLong),
   (RulePat.mask 0xffc0 0x46c0, Opcode.MoveToSr),
   (RulePat.mask 0xfff8 0x4840, Opcode.Swap),
   (RulePat.mask 0xfff8 0x4880, Opcode.ExtWord),
   (RulePat.mask 0xfff8 0x48e0, Opcode.MovemFrom),
   (RulePat.mask 0xffc0 0x4a00, Opcode.TstByte),
   (RulePat.mask 0xffc0 0x4a40, Opcode.TstWord),
   (RulePat.mask 0xffc0 0x4a80, Opcode.TstLong),
   (RulePat.mask 0xfff8 0x4cd8, Opcode.MovemTo),
   (RulePat.mask 0xfff0 0x4e40, Opcode.Trap),
   (RulePat.mask 0xfff0 0x4e90, Opcode.JsrA)]
  ++ addqSubqRules ++
  [(RulePat.mask 0xfff8 0x51c8, Opcode.Dbra),
   (RulePat.mask 0xff00 0x6000, Opcode.Bra),
   (RulePat.mask 0xff00 0x6100, Opcode.Bsr),
   (RulePat.mask 0xff00 0x6400, Opcode.Bcc),
   (RulePat.mask 0xff00 0x6500, Opcode.Bcs),
   (RulePat.mask 0xff00 0x6600, Opcode.Bne),
   (RulePat.mask 0xff00 0x6700, Opcode.Beq),
   (RulePat.mask 0xff00 0x6a00, Opcode.Bpl),
   (RulePat.mask 0xff00 0x6b00, Opcode.Bmi),
   (RulePat.mask 0xff00 0x6c00, Opcode.Bge),
   (RulePat.mask 0xff00 0x6d00, Opcode.Blt),
   (RulePat.mask 0xff00 0x6e00, Opcode.Bgt),
   (RulePat.mask 0xff00 0x6f00, Opcode.Ble),
   (RulePat.mask 0xf100 0x7000, Opcode.Moveq),
   (RulePat.mask 0xf1c0 0x8000, Opcode.OrByte),
   (RulePat.mask 0xf1c0 0x8040, Opcode.OrWord),
   (RulePat.mask 0xf1c0 0x9000, Opcode.SubByte),
   (RulePat.mask 0xf1c0 0x9040, Opcode.SubWord),
   (RulePat.mask 0xf1c0 0x91c0, Opcode.SubaLong),
   (RulePat.mask 0xfff8 0x00e8, Opcode.Cmp2Byte),
   (RulePat.mask 0xf1c0 0xb000, Opcode.CmpByte),
   (RulePat.mask 0xf1c0 0xb040, Opcode.CmpWord),
   (RulePat.mask 0xf1c0 0xb080, Opcode.CmpLong),
   (RulePat.mask 0xf1c0 0xb100, Opcode.EorByte),
   (RulePat.mask 0xf1f8 0xb108, Opcode.CmpmByte),
   (RulePat.mask 0xf1c0 0xb1c0, Opcode.CmpaLong),
   (RulePat.mask 0xf1c0 0xc000, Opcode.AndByte),
   (RulePat.mask 0xf1c0 0xc040, Opcode.AndWord),
   (RulePat.mask 0xf1c0 0xc080, Opcode.AndLong),
   (RulePat.mask 0xf1c0 0xc0c0, Opcode.MuluWord),
   (RulePat.mask 0xf1c0 0xd000, Opcode.AddByte),
   (RulePat.mask 0xf1c0 0xd040, Opcode.AddWord),
   (RulePat.mask 0xf1c0 0xd080, Opcode.AddLong),
   (RulePat.mask 0xf1c0 0xd1c0, Opcode.AddaLong),
   (RulePat.mask 0xf1f8 0xe058, Opcode.RorImWord),
   (RulePat.mask 0xf1f8 0xe008, Opcode.LsrImByte),
   (RulePat.mask 0xf1f8 0xe048, Opcode.LsrImWord),
   (RulePat.mask 0xf1f8 0xe148, Opcode.LslImWord),
   (RulePat.mask 0xf1f8 0xe178, Opcode.RolWord),
   (RulePat.mask 0xf1f8 0xe118, Opcode.RolImByte),
   (RulePat.mask 0xf1f8 0xe100, Opcode.AslImByte),
   (RulePat.mask 0xf1f8 0xe140, Opcode.AslImWord),
   (RulePat.mask 0xf1f8 0xe180, Opcode.AslImLong)]

/-- The instruction table: the tag of the last rule covering `x`, or
`Unknown` when no rule covers it.  This is exactly the effect of the
initialiser of opcode.rs, which fills a 65536-entry array starting from
all-`Unknown` and lets each rule overwrite the entries it covers. -/
def INST (x : Nat) : Opcode :=
  instRules.foldl (fun acc r => if r.1.hits x then r.2 else acc) Opcode.Unknown


/-- Condition-code bit masks of cpu.rs. -/
def FLAG_C : Nat := 1

/-- FLAG_V = 1 << 1. -/
def FLAG_V : Nat := 2

/-- FLAG_Z = 1 << 2. -/
def FLAG_Z : Nat := 4

/-- FLAG_N = 1 << 3. -/
def FLAG_N : Nat := 8

/-- FLAG_X = 1 << 4. -/
def FLAG_X : Nat := 16

/-- The machine state: the register file of registers.rs (eight data
registers, eight address registers indexed by their number, PC, SR)
together with the bus memory.  A7 (index 7) is the stack pointer. -/
structure State where
  d : Nat → Nat
  a : Nat → Nat
  pc : Nat
  sr : Nat
  mem : Mem

/-- Cpu::new with a given bus: all registers zero. -/
def newState (m : Mem) : State :=
  { d := fun _ => 0, a := fun _ => 0, pc := 0, sr := 0, mem := m }

/-- Cpu::reset: bus reset (a no-op on the flat bus), then SR := 0,
A7 := read32(0), PC := read32(4). -/
def resetFn (s : State) : State :=
  { s with sr := 0,
           a := Function.update s.a 7 (read32 s.mem 0),
           pc := read32 s.mem 4 }

/-- A fatal interpreter condition (a Rust panic).  `unknownOp` models the
default arm of Cpu::step, whose diagnostic line carries the instruction
address and the opcode word; `notImplemented` models the other
`panic!("Not implemented ...")` sites, carrying the offending detail. -/
inductive Fault where
  | unknownOp (pc : Nat) (op : Nat)
  | notImplemented (detail : Nat)
deriving DecidableEq

/-- util.rs get_branch_offset: the branch displacement (sign-extended) and
the number of extension bytes consumed, selected by the low byte of the
opcode (the source's `match` is rendered as an if-chain). -/
def getBranchOffset (op : Nat) (m : Mem) (adr : Nat) : Int × Nat :=
  let ofs := op &&& 0x00ff
  if ofs = 0 then (toI16 (read16 m adr), 2)
  else if ofs = 0xff then (toI32 (read32 m adr), 4)
  else (toI8 ofs, 0)

/-- util.rs conv07to18: the 3-bit quick-constant field, 0 mapping to 8
(`((x & 7).wrapping_sub(1) & 7) + 1` on u16). -/
def conv07to18 (x : Nat) : Nat := (((x &&& 7) + 65535) % 65536 &&& 7) + 1

/-- cpu.rs replace_byte: `(x & 0xffffff00) | b`. -/
def replace_byte (x b : Nat) : Nat := (x &&& 0xffffff00) ||| b

/-- cpu.rs replace_word: `(x & 0xffff0000) | w`. -/
def replace_word (x w : Nat) : Nat := (x &&& 0xffff0000) ||| w

/-- Cpu::push32: decrement A7 by 4 (u32 wrap), then write the long there. -/
def push32 (s : State) (value : Nat) : State :=
  let sp := mask32 (s.a 7 + 4294967292)
  { s with a := Function.update s.a 7 sp, mem := write32 s.mem sp value }

/-- Cpu::pop32: read the long at A7, incrementing A7 by 4. -/
def pop32 (s : State) : Nat × State :=
  (read32 s.mem (s.a 7), { s with a := Function.update s.a 7 (mask32 (s.a 7 + 4)) })

/-- Cpu::set_cmp_sr: rebuild the C/Z/V/N bits (in that order, as the
source accumulates the ccr), preserving the rest of SR (`!0xF` = 0xfff0). -/
def set_cmp_sr (sr : Nat) (borrow eq overflow neg : Bool) : Nat :=
  (sr &&& 0xfff0) |||
    ((((if borrow then FLAG_C else 0) ||| (if eq then FLAG_Z else 0)) |||
      (if overflow then FLAG_V else 0)) ||| (if neg then FLAG_N else 0))

/-- Cpu::set_and_sr: Z/N from the result, V and C cleared, X preserved. -/
def set_and_sr (sr : Nat) (zero neg : Bool) : Nat :=
  (sr &&& 0xfff0) ||| ((if zero then FLAG_Z else 0) ||| (if neg then FLAG_N else 0))

/-- Cpu::set_tst_sr: same update as set_and_sr (the source clears the same
four bits and sets Z/N). -/
def set_tst_sr (sr : Nat) (zero neg : Bool) : Nat :=
  (sr &&& 0xfff0) ||| ((if zero then FLAG_Z else 0) ||| (if neg then FLAG_N else 0))

/-- Cpu::read_source8_incpc: byte-size EA read.  Returns the value and the
state (PC / address-register side effects applied when `incpc`). -/
def read_source8_incpc (s : State) (src m : Nat) (incpc : Bool) :
    Except Fault (Nat × State) :=
  match src with
  | 0 => .ok (s.d m % 256, s)
  | 2 => .ok (read8 s.mem (s.a m), s)
  | 3 =>
    let adr := s.a m
    let s := if incpc then { s with a := Function.update s.a m (mask32 (adr + 1)) } else s
    .ok (read8 s.mem adr, s)
  | 5 =>
    let ofs := toI16 (read16 s.mem s.pc)
    let s := if incpc then { s with pc := mask32 (s.pc + 2) } else s
    .ok (read8 s.mem (intToU32 (toI32 (s.a m) + ofs)), s)
  | 7 =>
    match m with
    | 1 =>
      let adr := read32 s.mem s.pc
      let s := if incpc then { s with pc := mask32 (s.pc + 4) } else s
      .ok (read8 s.mem adr, s)
    | 4 =>
      if incpc then
        let value := read16 s.mem s.pc
        .ok (value &&& 0xff, { s with pc := mask32 (s.pc + 2) })
      else .error (.notImplemented m)
    | _ => .error (.notImplemented m)
  | _ => .error (.notImplemented src)

/-- The brief-extension-word address computation shared by the mode-6 arms:
`(ofs + (a[m] as i32) + regofs) as u32` with the index register selected
and widened per the extension word. -/
def briefExtAdr (s : State) (m extension : Nat) : Nat :=
  let ofs : Int := toI8 extension
  let da := extension &&& 0x8000 ≠ 0
  let dr := (extension >>> 12) &&& 7
  let dl := extension &&& 0x0800 ≠ 0
  let regofs : Int :=
    if dl then toI32 (if da then s.a dr else s.d dr)
    else toI16 (if da then s.a dr else s.d dr)
  intToU32 (ofs + toI32 (s.a m) + regofs)

/-- Cpu::read_source16_incpc: word-size EA read.  Note that mode 6 bumps
PC unconditionally, and mode 7/4 without PC advance returns SR. -/
def read_source16_incpc (s : State) (src m : Nat) (incpc : Bool) :
    Except Fault (Nat × State) :=
  match src with
  | 0 => .ok (s.d m % 65536, s)
  | 2 => .ok (read16 s.mem (s.a m), s)
  | 3 =>
    let adr := s.a m
    let s := if incpc then { s with a := Function.update s.a m (mask32 (adr + 2)) } else s
    .ok (read16 s.mem adr, s)
  | 5 =>
    let ofs := toI16 (read16 s.mem s.pc)
    let s := if incpc then { s with pc := mask32 (s.pc + 2) } else s
    .ok (read16 s.mem (intToU32 (toI32 (s.a m) + ofs)), s)
  | 6 =>
    let extension := read16 s.mem s.pc
    let s := { s with pc := mask32 (s.pc + 2) }
    if extension &&& 0x100 ≠ 0 then .error (.notImplemented extension)
    else .ok (read16 s.mem (briefExtAdr s m extension), s)
  | 7 =>
    match m with
    | 1 =>
      let adr := read32 s.mem s.pc
      let s := if incpc then { s with pc := mask32 (s.pc + 4) } else s
      .ok (read16 s.mem adr, s)
    | 4 =>
      if incpc then
        let value := read16 s.mem s.pc
        .ok (value, { s with pc := mask32 (s.pc + 2) })
      else .ok (s.sr, s)
    | _ => .error (.notImplemented m)
  | _ => .error (.notImplemented src)

/-- Cpu::read_source32_incpc: long-size EA read. -/
def read_source32_incpc (s : State) (src m : Nat) (incpc : Bool) :
    Except Fault (Nat × State) :=
  match src with
  | 0 => .ok (s.d m, s)
  | 1 => .ok (s.a m, s)
  | 2 => .ok (read32 s.mem (s.a m), s)
  | 3 =>
    let adr := s.a m
    let s := if incpc then { s with a := Function.update s.a m (mask32 (adr + 4)) } else s
    .ok (read32 s.mem adr, s)
  | 5 =>
    let ofs := toI16 (read16 s.mem s.pc)
    let s := if incpc then { s with pc := mask32 (s.pc + 2) } else s
    .ok (read32 s.mem (intToU32 (toI32 (s.a m) + ofs)), s)
  | 6 =>
    let extension := read16 s.mem s.pc
    let s := { s with pc := mask32 (s.pc + 2) }
    if extension &&& 0x100 ≠ 0 then .error (.notImplemented extension)
    else .ok (read32 s.mem (briefExtAdr s m extension), s)
  | 7 =>
    match m with
    | 1 =>
      let adr := read32 s.mem s.pc
      let s := if incpc then { s with pc := mask32 (s.pc + 4) } else s
      .ok (read32 s.mem adr, s)
    | 4 =>
      if incpc then
        let value := read32 s.mem s.pc
        .ok (value, { s with pc := mask32 (s.pc + 4) })
      else .error (.notImplemented m)
    | _ => .error (.notImplemented m)
  | _ => .error (.notImplemented src)

/-- Cpu::read_source8 = read_source8_incpc with PC advance. -/
def read_source8 (s : State) (src m : Nat) : Except Fault (Nat × State) :=
  read_source8_incpc s src m true

/-- Cpu::read_source16 = read_source16_incpc with PC advance. -/
def read_source16 (s : State) (src m : Nat) : Except Fault (Nat × State) :=
  read_source16_incpc s src m true

/-- Cpu::read_source32 = read_source32_incpc with PC advance. -/
def read_source32 (s : State) (src m : Nat) : Except Fault (Nat × State) :=
  read_source32_incpc s src m true

/-- Cpu::write_destination8: byte-size EA write. -/
def write_destination8 (s : State) (dst n value : Nat) : Except Fault State :=
  match dst with
  | 0 => .ok { s with d := Function.update s.d n (replace_byte (s.d n) value) }
  | 2 => .ok { s with mem := write8 s.mem (s.a n) value }
  | 3 =>
    let adr := s.a n
    .ok { s with mem := write8 s.mem adr value,
                 a := Function.update s.a n (mask32 (adr + 1)) }
  | 5 =>
    let ofs := toI16 (read16 s.mem s.pc)
    let s := { s with pc := mask32 (s.pc + 2) }
    .ok { s with mem := write8 s.mem (intToU32 (toI32 (s.a n) + ofs)) value }
  | 6 =>
    let extension := read16 s.mem s.pc
    let s := { s with pc := mask32 (s.pc + 2) }
    if extension &&& 0x100 ≠ 0 then .error (.notImplemented extension)
    else .ok { s with mem := write8 s.mem (briefExtAdr s n extension) value }
  | 7 =>
    match n with
    | 1 =>
      let adr := read32 s.mem s.pc
      let s := { s with pc := mask32 (s.pc + 4) }
      .ok { s with mem := write8 s.mem adr value }
    | _ => .error (.notImplemented n)
  | _ => .error (.notImplemented dst)

/-- Cpu::write_destination16: word-size EA write.  Mode 0 and mode 1
replace only the low word of the register (no sign-extension); mode 7/4
writes SR. -/
def write_destination16 (s : State) (dst n value : Nat) : Except Fault State :=
  match dst with
  | 0 => .ok { s with d := Function.update s.d n (replace_word (s.d n) value) }
  | 1 => .ok { s with a := Function.update s.a n (replace_word (s.a n) value) }
  | 2 => .ok { s with mem := write16 s.mem (s.a n) value }
  | 3 =>
    let adr := s.a n
    .ok { s with mem := write16 s.mem adr value,
                 a := Function.update s.a n (mask32 (adr + 2)) }
  | 4 =>
    let adr := mask32 (s.a n + 4294967294)
    .ok { s with a := Function.update s.a n adr,
                 mem := write16 s.mem adr value }
  | 5 =>
    let ofs := toI16 (read16 s.mem s.pc)
    let s := { s with pc := mask32 (s.pc + 2) }
    .ok { s with mem := write16 s.mem (intToU32 (toI32 (s.a n) + ofs)) value }
  | 7 =>
    match n with
    | 1 =>
      let adr := read32 s.mem s.pc
      let s := { s with pc := mask32 (s.pc + 4) }
      .ok { s with mem := write16 s.mem adr value }
    | 4 => .ok { s with sr := value }
    | _ => .error (.notImplemented n)
  | _ => .error (.notImplemented dst)

/-- Cpu::write_destination32: long-size EA write. -/
def write_destination32 (s : State) (dst n value : Nat) : Except Fault State :=
  match dst with
  | 0 => .ok { s with d := Function.update s.d n value }
  | 1 => .ok { s with a := Function.update s.a n value }
  | 2 => .ok { s with mem := write32 s.mem (s.a n) value }
  | 3 =>
    let adr := s.a n
    .ok { s with mem := write32 s.mem adr value,
                 a := Function.update s.a n (mask32 (adr + 4)) }
  | 4 =>
    let adr := mask32 (s.a n + 4294967292)
    .ok { s with a := Function.update s.a n adr,
                 mem := write32 s.mem adr value }
  | 5 =>
    let ofs := toI16 (read16 s.mem s.pc)
    let s := { s with pc := mask32 (s.pc + 2) }
    .ok { s with mem := write32 s.mem (intToU32 (toI32 (s.a n) + ofs)) value }
  | 7 =>
    match n with
    | 1 =>
      let adr := read32 s.mem s.pc
      let s := { s with pc := mask32 (s.pc + 4) }
      .ok { s with mem := write32 s.mem adr value }
    | _ => .error (.notImplemented n)
  | _ => .error (.notImplemented dst)

/-- Cpu::bcond: fetch the branch offset; when the condition holds set
`PC ← PC + offset` (i32 wrap-add on the PC after the opcode word),
otherwise step PC over the displacement words. -/
def bcond (s : State) (op : Nat) (cond : Bool) : State :=
  let (ofs, sz) := getBranchOffset op s.mem s.pc
  { s with pc := if cond then intToU32 (toI32 s.pc + ofs) else mask32 (s.pc + sz) }

/-- The first MOVEM-to-memory loop: for bits 0..7 set in the mask,
predecrement the running pointer and store address register `a[7-i]`. -/
def movemFromARegs (s : State) (bits : Nat) (pm : Nat × Mem) : Nat × Mem :=
  (List.range 8).foldl (fun pm i =>
    if bits &&& (0x0001 <<< i) ≠ 0 then
      let p := mask32 (pm.1 + 4294967292)
      (p, write32 pm.2 p (s.a (7 - i)))
    else pm) pm

/-- The second MOVEM-to-memory loop: for bits 8..15 set in the mask,
predecrement the running pointer and store data register `d[7-i]`. -/
def movemFromDRegs (s : State) (bits : Nat) (pm : Nat × Mem) : Nat × Mem :=
  (List.range 8).foldl (fun pm i =>
    if bits &&& (0x0100 <<< i) ≠ 0 then
      let p := mask32 (pm.1 + 4294967292)
      (p, write32 pm.2 p (s.d (7 - i)))
    else pm) pm

/-- The first MOVEM-from-memory loop: for bits 0..7 set in the mask, load
data register `d[i]` and postincrement the running pointer. -/
def movemToDRegs (bits : Nat) (sp : State × Nat) : State × Nat :=
  (List.range 8).foldl (fun sp i =>
    if bits &&& (0x0001 <<< i) ≠ 0 then
      ({ sp.1 with d := Function.update sp.1.d i (read32 sp.1.mem sp.2) },
       mask32 (sp.2 + 4))
    else sp) sp

/-- The second MOVEM-from-memory loop: for bits 8..15 set in the mask, load
address register `a[i]` and postincrement the running pointer. -/
def movemToARegs (bits : Nat) (sp : State × Nat) : State × Nat :=
  (List.range 8).foldl (fun sp i =>
    if bits &&& (0x0100 <<< i) ≠ 0 then
      ({ sp.1 with a := Function.update sp.1.a i (read32 sp.1.mem sp.2) },
       mask32 (sp.2 + 4))
    else sp) sp

/-- The body of Cpu::step after the opcode fetch: `s` already has PC
advanced past the opcode word, `startadr` is the opcode address, `op` the
opcode word, and the last argument its table tag.  Each arm mirrors the
corresponding arm of the `match inst.op` in cpu.rs. -/
def execInst (s : State) (startadr op : Nat) : Opcode → Except Fault State
  | .Nop => .ok s
  | .MoveByte => do
    let si := op &&& 7
    let st := (op >>> 3) &&& 7
    let dt := (op >>> 6) &&& 7
    let di := (op >>> 9) &&& 7
    let (src, s) ← read_source8 s st si
    let s ← write_destination8 s dt di src
    let ccr := (if src = 0 then FLAG_Z else 0) ||| (if src &&& 0x80 ≠ 0 then FLAG_N else 0)
    .ok { s with sr := (s.sr &&& 0xfff0) ||| ccr }
  | .MoveWord => do
    let si := op &&& 7
    let st := (op >>> 3) &&& 7
    let dt := (op >>> 6) &&& 7
    let di := (op >>> 9) &&& 7
    let (src, s) ← read_source16 s st si
    let s ← write_destination16 s dt di src
    let ccr := (if src = 0 then FLAG_Z else 0) ||| (if src &&& 0x8000 ≠ 0 then FLAG_N else 0)
    .ok { s with sr := (s.sr &&& 0xfff0) ||| ccr }
  | .MoveLong => do
    let si := op &&& 7
    let st := (op >>> 3) &&& 7
    let dt := (op >>> 6) &&& 7
    let di := (op >>> 9) &&& 7
    let (src, s) ← read_source32 s st si
    let s ← write_destination32 s dt di src
    let ccr := (if src = 0 then FLAG_Z else 0) ||| (if src &&& 0x80000000 ≠ 0 then FLAG_N else 0)
    .ok { s with sr := (s.sr &&& 0xfff0) ||| ccr }
  | .Moveq =>
    let v := op &&& 0xff
    let di := (op >>> 9) &&& 7
    let src : Int := if v < 0x80 then (v : Int) else -256 + v
    let ccr := (if src = 0 then FLAG_Z else 0) ||| (if src < 0 then FLAG_N else 0)
    .ok { s with d := Function.update s.d di (intToU32 src),
                 sr := (s.sr &&& 0xfff0) ||| ccr }
  | .MovemFrom =>
    let di := op &&& 7
    let bits := read16 s.mem s.pc
    let s := { s with pc := mask32 (s.pc + 2) }
    let pm := movemFromDRegs s bits (movemFromARegs s bits (s.a di, s.mem))
    .ok { s with a := Function.update s.a di pm.1, mem := pm.2 }
  | .MovemTo =>
    let di := op &&& 7
    let bits := read16 s.mem s.pc
    let s := { s with pc := mask32 (s.pc + 2) }
    let sp := movemToARegs bits (movemToDRegs bits (s, s.a di))
    .ok { sp.1 with a := Function.update sp.1.a di sp.2 }
  | .MoveToSrIm =>
    .ok { s with sr := read16 s.mem s.pc, pc := mask32 (s.pc + 2) }
  | .MoveToSr => do
    let si := op &&& 7
    let st := (op >>> 3) &&& 7
    let (src, s) ← read_source16 s st si
    .ok { s with sr := src }
  | .MoveFromSr => do
    let di := op &&& 7
    let dt := (op >>> 3) &&& 7
    write_destination16 s dt di s.sr
  | .LeaDirect =>
    let di := (op >>> 9) &&& 7
    let value := read32 s.mem s.pc
    let s := { s with pc := mask32 (s.pc + 4) }
    .ok { s with a := Function.update s.a di value }
  | .LeaOffset =>
    let si := op &&& 7
    let di := (op >>> 9) &&& 7
    let ofs := toI16 (read16 s.mem s.pc)
    let s := { s with pc := mask32 (s.pc + 2) }
    .ok { s with a := Function.update s.a di (intToU32 (toI32 (s.a si) + ofs)) }
  | .LeaOffsetD =>
    let si := op &&& 7
    let di := (op >>> 9) &&& 7
    let next := read16 s.mem s.pc
    let s := { s with pc := mask32 (s.pc + 2) }
    if next &&& 0x8f00 = 0 then
      let ofs : Int := toI8 next
      let ii := (next >>> 12) &&& 0x07
      .ok { s with a := Function.update s.a di (intToU32 (toI32 (s.a si) + toI16 (s.d ii) + ofs)) }
    else .error (.notImplemented next)
  | .LeaOffsetPc =>
    let di := (op >>> 9) &&& 7
    let ofs := toI16 (read16 s.mem s.pc)
    let s := { s with pc := mask32 (s.pc + 2) }
    .ok { s with a := Function.update s.a di (intToU32 (toI32 s.pc + ofs)) }
  | .ClrByte =>
    write_destination8 s ((op >>> 3) &&& 7) (op &&& 7) 0
  | .ClrWord =>
    write_destination16 s ((op >>> 3) &&& 7) (op &&& 7) 0
  | .ClrLong =>
    write_destination32 s ((op >>> 3) &&& 7) (op &&& 7) 0
  | .Swap =>
    let di := op &&& 7
    let v := s.d di
    .ok { s with d := Function.update s.d di ((v >>> 16) ||| mask32 (v <<< 16)) }
  | .CmpByte => do
    let si := op &&& 7
    let st := (op >>> 3) &&& 7
    let di := (op >>> 9) &&& 7
    let (src, s) ← read_source8 s st si
    let (dst, s) ← read_source8 s 0 di
    let res := wsub 8 dst src
    .ok { s with sr := set_cmp_sr s.sr (decide (dst < src)) (decide (dst = src)) (decide (((src ^^^ dst) &&& (res ^^^ dst)) &&& 0x80 ≠ 0)) (decide (res &&& 0x80 ≠ 0)) }
  | .CmpWord => do
    let si := op &&& 7
    let st := (op >>> 3) &&& 7
    let di := (op >>> 9) &&& 7
    let (src, s) ← read_source16 s st si
    let (dst, s) ← read_source16 s 0 di
    let res := wsub 16 dst src
    .ok { s with sr := set_cmp_sr s.sr (decide (dst < src)) (decide (dst = src)) (decide (((src ^^^ dst) &&& (res ^^^ dst)) &&& 0x8000 ≠ 0)) (decide (res &&& 0x8000 ≠ 0)) }
  | .CmpLong => do
    let si := op &&& 7
    let st := (op >>> 3) &&& 7
    let di := (op >>> 9) &&& 7
    let (src, s) ← read_source32 s st si
    let (dst, s) ← read_source32 s 0 di
    let res := wsub 32 dst src
    .ok { s with sr := set_cmp_sr s.sr (decide (dst < src)) (decide (dst = src)) (decide (((src ^^^ dst) &&& (res ^^^ dst)) &&& 0x80000000 ≠ 0)) (decide (res &&& 0x80000000 ≠ 0)) }
  | .CmpiByte => do
    let di := op &&& 7
    let dt := (op >>> 3) &&& 7
    let src := read16 s.mem s.pc % 256
    let s := { s with pc := mask32 (s.pc + 2) }
    let (dst, s) ← read_source8 s dt di
    let res := wsub 8 dst src
    .ok { s with sr := set_cmp_sr s.sr (decide (dst < src)) (decide (dst = src)) (decide (((src ^^^ dst) &&& (res ^^^ dst)) &&& 0x80 ≠ 0)) (decide (res &&& 0x80 ≠ 0)) }
  | .CmpiWord => do
    let di := op &&& 7
    let dt := (op >>> 3) &&& 7
    let src := read16 s.mem s.pc
    let s := { s with pc := mask32 (s.pc + 2) }
    let (dst, s) ← read_source16 s dt di
    let res := wsub 16 dst src
    .ok { s with sr := set_cmp_sr s.sr (decide (dst < src)) (decide (dst = src)) (decide (((src ^^^ dst) &&& (res ^^^ dst)) &&& 0x8000 ≠ 0)) (decide (res &&& 0x8000 ≠ 0)) }
  | .CmpaLong => do
    let si := op &&& 7
    let st := (op >>> 3) &&& 7
    let di := (op >>> 9) &&& 7
    let (src, s) ← read_source32 s st si
    let (dst, s) ← read_source32 s 1 di
    let res := wsub 32 dst src
    .ok { s with sr := set_cmp_sr s.sr (decide (dst < src)) (decide (dst = src)) (decide (((src ^^^ dst) &&& (res ^^^ dst)) &&& 0x80000000 ≠ 0)) (decide (res &&& 0x80000000 ≠ 0)) }
  | .CmpmByte =>
    let si := op &&& 7
    let di := (op >>> 9) &&& 7
    let dst := read8 s.mem (s.a di)
    let src := read8 s.mem (s.a si)
    let s := { s with a := Function.update s.a si (mask32 (s.a si + 1)) }
    let s := { s with a := Function.update s.a di (mask32 (s.a di + 1)) }
    let res := wsub 8 dst src
    .ok { s with sr := set_cmp_sr s.sr (decide (dst < src)) (decide (dst = src)) (decide (((src ^^^ dst) &&& (res ^^^ dst)) &&& 0x80 ≠ 0)) (decide (res &&& 0x80 ≠ 0)) }
  | .TstByte => do
    let si := op &&& 7
    let st := (op >>> 3) &&& 7
    let (val, s) ← read_source8 s st si
    let v := toI8 val
    .ok { s with sr := set_tst_sr s.sr (decide (v = 0)) (decide (v < 0)) }
  | .TstWord => do
    let si := op &&& 7
    let st := (op >>> 3) &&& 7
    let (val, s) ← read_source16 s st si
    let v := toI16 val
    .ok { s with sr := set_tst_sr s.sr (decide (v = 0)) (decide (v < 0)) }
  | .TstLong => do
    let si := op &&& 7
    let st := (op >>> 3) &&& 7
    let (val, s) ← read_source32 s st si
    let v := toI32 val
    .ok { s with sr := set_tst_sr s.sr (decide (v = 0)) (decide (v < 0)) }
  | .BtstIm => do
    let bit := read16 s.mem s.pc
    let s := { s with pc := mask32 (s.pc + 2) }
    let si := op &&& 7
    let st := (op >>> 3) &&& 7
    if st < 2 then
      let (val, s) ← read_source32 s st si
      let zero := val &&& (1 <<< (bit &&& 31)) = 0
      .ok { s with sr := (s.sr &&& 0xfffb) ||| (if zero then FLAG_Z else 0) }
    else
      let (val, s) ← read_source8 s st si
      let zero := val &&& (1 <<< (bit &&& 7)) = 0
      .ok { s with sr := (s.sr &&& 0xfffb) ||| (if zero then FLAG_Z else 0) }
  | .BclrIm => do
    let di := op &&& 7
    let dt := (op >>> 3) &&& 7
    let bit := read16 s.mem s.pc
    let s := { s with pc := mask32 (s.pc + 2) }
    if dt < 2 then
      let (dst, s) ← read_source32_incpc s dt di false
      write_destination32 s dt di (dst &&& (4294967295 ^^^ (1 <<< (bit &&& 31))))
    else
      let (dst, s) ← read_source8_incpc s dt di false
      write_destination8 s dt di (dst &&& (255 ^^^ (1 <<< (bit &&& 7))))
  | .Bset => do
    let di := op &&& 7
    let dt := (op >>> 3) &&& 7
    let si := (op >>> 9) &&& 7
    if dt < 2 then
      let (dst, s) ← read_source32_incpc s dt di false
      write_destination32 s dt di (dst ||| (1 <<< (s.d si &&& 31)))
    else
      let (dst, s) ← read_source8_incpc s dt di false
      write_destination8 s dt di (dst ||| (1 <<< (s.d si &&& 7)))
  | .BsetIm => do
    let di := op &&& 7
    let dt := (op >>> 3) &&& 7
    let bit := read16 s.mem s.pc
    let s := { s with pc := mask32 (s.pc + 2) }
    if dt < 2 then
      let (dst, s) ← read_source32_incpc s dt di false
      write_destination32 s dt di (dst ||| (1 <<< (bit &&& 31)))
    else
      let (dst, s) ← read_source8_incpc s dt di false
      write_destination8 s dt di (dst ||| (1 <<< (bit &&& 7)))
  | .AddByte => do
    let si := op &&& 7
    let st := (op >>> 3) &&& 7
    let di := (op >>> 9) &&& 7
    let (src, s) ← read_source8 s st si
    let val := s.d di
    .ok { s with d := Function.update s.d di (replace_byte val ((val % 256 + src) % 256)) }
  | .AddWord => do
    let si := op &&& 7
    let st := (op >>> 3) &&& 7
    let di := (op >>> 9) &&& 7
    let (src, s) ← read_source16 s st si
    let val := s.d di
    .ok { s with d := Function.update s.d di (replace_word val ((val % 65536 + src) % 65536)) }
  | .AddLong => do
    let si := op &&& 7
    let st := (op >>> 3) &&& 7
    let di := (op >>> 9) &&& 7
    let (src, s) ← read_source32 s st si
    .ok { s with d := Function.update s.d di (mask32 (s.d di + src)) }
  | .AddiByte => do
    let di := op &&& 7
    let dt := (op >>> 3) &&& 7
    let v := read16 s.mem s.pc % 256
    let s := { s with pc := mask32 (s.pc + 2) }
    let (src, s) ← read_source8_incpc s dt di false
    write_destination8 s dt di ((src + v) % 256)
  | .AddiWord => do
    let di := op &&& 7
    let dt := (op >>> 3) &&& 7
    let v := read16 s.mem s.pc
    let s := { s with pc := mask32 (s.pc + 2) }
    let (src, s) ← read_source16_incpc s dt di false
    write_destination16 s dt di ((src + v) % 65536)
  | .AddaLong => do
    let si := op &&& 7
    let st := (op >>> 3) &&& 7
    let di := (op >>> 9) &&& 7
    let (src, s) ← read_source32 s st si
    .ok { s with a := Function.update s.a di (mask32 (s.a di + src)) }
  | .AddqByte => do
    let si := op &&& 7
    let st := (op >>> 3) &&& 7
    let v := conv07to18 (op >>> 9)
    let (src, s) ← read_source8_incpc s st si false
    write_destination8 s st si ((v % 256 + src) % 256)
  | .AddqWord => do
    let si := op &&& 7
    let st := (op >>> 3) &&& 7
    let v := conv07to18 (op >>> 9)
    let (src, s) ← read_source16_incpc s st si false
    write_destination16 s st si ((v + src) % 65536)
  | .AddqLong => do
    let si := op &&& 7
    let st := (op >>> 3) &&& 7
    let v := conv07to18 (op >>> 9)
    let (src, s) ← read_source32_incpc s st si false
    write_destination32 s st si (mask32 (v + src))
  | .SubByte => do
    let si := op &&& 7
    let st := (op >>> 3) &&& 7
    let di := (op >>> 9) &&& 7
    let (src, s) ← read_source8 s st si
    let val := s.d di
    .ok { s with d := Function.update s.d di (replace_byte val (wsub 8 (val % 256) src)) }
  | .SubWord => do
    let si := op &&& 7
    let st := (op >>> 3) &&& 7
    let di := (op >>> 9) &&& 7
    let (src, s) ← read_source16 s st si
    let val := s.d di
    .ok { s with d := Function.update s.d di (replace_word val (wsub 16 (val % 65536) src)) }
  | .SubiByte => do
    let di := op &&& 7
    let dt := (op >>> 3) &&& 7
    let v := read16 s.mem s.pc % 256
    let s := { s with pc := mask32 (s.pc + 2) }
    let (src, s) ← read_source8_incpc s dt di false
    write_destination8 s dt di (wsub 8 src v)
  | .SubaLong => do
    let si := op &&& 7
    let st := (op >>> 3) &&& 7
    let di := (op >>> 9) &&& 7
    let (src, s) ← read_source32 s st si
    .ok { s with a := Function.update s.a di (wsub 32 (s.a di) src) }
  | .SubqWord => do
    let si := op &&& 7
    let st := (op >>> 3) &&& 7
    let v := conv07to18 (op >>> 9)
    let (src, s) ← read_source16_incpc s st si false
    let val := wsub 16 src v
    let s ← write_destination16 s st si val
    .ok { s with sr := (s.sr &&& 0xfffb) ||| (if val = 0 then FLAG_Z else 0) }
  | .SubqLong => do
    let si := op &&& 7
    let st := (op >>> 3) &&& 7
    let v := conv07to18 (op >>> 9)
    let (src, s) ← read_source32_incpc s st si false
    let val := wsub 32 src v
    let s ← write_destination32 s st si val
    .ok { s with sr := (s.sr &&& 0xfffb) ||| (if val = 0 then FLAG_Z else 0) }
  | .MuluWord => do
    let si := op &&& 7
    let st := (op >>> 3) &&& 7
    let di := (op >>> 9) &&& 7
    let (src, s) ← read_source16 s st si
    .ok { s with d := Function.update s.d di (mask32 ((s.d di % 65536) * src)) }
  | .AndByte => do
    let si := op &&& 7
    let st := (op >>> 3) &&& 7
    let di := (op >>> 9) &&& 7
    let (src, s) ← read_source8 s st si
    let dst := s.d di
    let res := (dst % 256) &&& src
    .ok { s with d := Function.update s.d di (replace_byte dst res),
                 sr := set_and_sr s.sr (decide (res = 0)) (decide (res &&& 0x80 ≠ 0)) }
  | .AndWord => do
    let si := op &&& 7
    let st := (op >>> 3) &&& 7
    let di := (op >>> 9) &&& 7
    let (src, s) ← read_source16 s st si
    let dst := s.d di
    let res := (dst % 65536) &&& src
    .ok { s with d := Function.update s.d di (replace_word dst res),
                 sr := set_and_sr s.sr (decide (res = 0)) (decide (res &&& 0x8000 ≠ 0)) }
  | .AndLong => do
    let si := op &&& 7
    let st := (op >>> 3) &&& 7
    let di := (op >>> 9) &&& 7
    let (src, s) ← read_source32 s st si
    let dst := s.d di
    let res := dst &&& src
    .ok { s with d := Function.update s.d di res,
                 sr := set_and_sr s.sr (decide (res = 0)) (decide (res &&& 0x80000000 ≠ 0)) }
  | .AndiWord => do
    let di := op &&& 7
    let dt := (op >>> 3) &&& 7
    let v := read16 s.mem s.pc
    let s := { s with pc := mask32 (s.pc + 2) }
    let (dst, s) ← read_source16_incpc s dt di false
    let res := dst &&& v
    let s ← write_destination16 s dt di res
    .ok { s with sr := set_and_sr s.sr (decide (res = 0)) (decide (res &&& 0x8000 ≠ 0)) }
  | .OrByte => do
    let si := op &&& 7
    let st := (op >>> 3) &&& 7
    let di := (op >>> 9) &&& 7
    let (src, s) ← read_source8 s st si
    let dst := s.d di
    .ok { s with d := Function.update s.d di (replace_byte dst ((dst % 256) ||| src)) }
  | .OrWord => do
    let si := op &&& 7
    let st := (op >>> 3) &&& 7
    let di := (op >>> 9) &&& 7
    let (src, s) ← read_source16 s st si
    let dst := s.d di
    .ok { s with d := Function.update s.d di (replace_word dst ((dst % 65536) ||| src)) }
  | .OriByte => do
    let di := op &&& 7
    let dt := (op >>> 3) &&& 7
    let v := read16 s.mem s.pc % 256
    let s := { s with pc := mask32 (s.pc + 2) }
    let (src, s) ← read_source8_incpc s dt di false
    write_destination8 s dt di (src ||| v)
  | .OriWord => do
    let di := op &&& 7
    let dt := (op >>> 3) &&& 7
    let v := read16 s.mem s.pc
    let s := { s with pc := mask32 (s.pc + 2) }
    let (src, s) ← read_source16_incpc s dt di false
    write_destination16 s dt di (src ||| v)
  | .EorByte => do
    let di := op &&& 7
    let dt := (op >>> 3) &&& 7
    let si := (op >>> 9) &&& 7
    let (dst, s) ← read_source8_incpc s dt di false
    write_destination8 s dt di ((s.d si % 256) ^^^ dst)
  | .EoriByte => do
    let di := op &&& 7
    let dt := (op >>> 3) &&& 7
    let v := read16 s.mem s.pc % 256
    let s := { s with pc := mask32 (s.pc + 2) }
    let (src, s) ← read_source8_incpc s dt di false
    write_destination8 s dt di (src ^^^ v)
  | .EoriWord => do
    let di := op &&& 7
    let dt := (op >>> 3) &&& 7
    let v := read16 s.mem s.pc
    let s := { s with pc := mask32 (s.pc + 2) }
    let (src, s) ← read_source16_incpc s dt di false
    write_destination16 s dt di (src ^^^ v)
  | .AslImByte =>
    let di := op &&& 7
    let shift := conv07to18 (op >>> 9)
    .ok { s with d := Function.update s.d di (replace_byte (s.d di) (((s.d di % 256) <<< (shift % 8)) % 256)) }
  | .AslImWord =>
    let di := op &&& 7
    let shift := conv07to18 (op >>> 9)
    .ok { s with d := Function.update s.d di (replace_word (s.d di) (((s.d di % 65536) <<< shift) % 65536)) }
  | .AslImLong =>
    let di := op &&& 7
    let shift := conv07to18 (op >>> 9)
    .ok { s with d := Function.update s.d di (mask32 (s.d di <<< shift)) }
  | .LsrImByte =>
    let di := op &&& 7
    let shift := conv07to18 (op >>> 9)
    let val := s.d di
    let newval := (val % 256) >>> (shift % 8)
    let sr1 := s.sr &&& 0xffe0
    let sr2 := if val &&& (1 <<< (shift - 1)) ≠ 0 then sr1 ||| (FLAG_X ||| FLAG_C) else sr1
    let sr3 := if newval = 0 then sr2 ||| FLAG_Z else sr2
    .ok { s with d := Function.update s.d di (replace_byte val newval), sr := sr3 }
  | .LsrImWord =>
    let di := op &&& 7
    let shift := conv07to18 (op >>> 9)
    let val := s.d di
    let newval := (val % 65536) >>> shift
    let sr1 := s.sr &&& 0xffe0
    let sr2 := if val &&& (1 <<< (shift - 1)) ≠ 0 then sr1 ||| (FLAG_X ||| FLAG_C) else sr1
    let sr3 := if newval = 0 then sr2 ||| FLAG_Z else sr2
    .ok { s with d := Function.update s.d di (replace_word val newval), sr := sr3 }
  | .LslImWord =>
    let di := op &&& 7
    let shift := conv07to18 (op >>> 9)
    let val := s.d di
    .ok { s with d := Function.update s.d di (replace_word val (((val % 65536) <<< shift) % 65536)) }
  | .RorImWord =>
    let di := op &&& 7
    let si := conv07to18 (op >>> 9)
    let dst := s.d di
    let w := dst % 65536
    .ok { s with d := Function.update s.d di (replace_word dst ((w >>> si) ||| ((w <<< (8 - si)) % 65536))) }
  | .RorImLong =>
    let di := op &&& 7
    let si := conv07to18 (op >>> 9)
    let dst := s.d di
    .ok { s with d := Function.update s.d di ((dst >>> si) ||| mask32 (dst <<< (8 - si))) }
  | .RolWord =>
    let di := op &&& 7
    let si := (op >>> 9) &&& 7
    let val := s.d di % 65536
    let shift := s.d si &&& 15
    .ok { s with d := Function.update s.d di (replace_word (s.d di) (((val <<< shift) % 65536) ||| (val >>> ((16 - shift) % 16)))) }
  | .RolImByte =>
    let di := op &&& 7
    let si := conv07to18 (op >>> 9)
    let val := s.d di % 256
    .ok { s with d := Function.update s.d di (replace_byte (s.d di) (((val <<< (si % 8)) % 256) ||| (val >>> (8 - si)))) }
  | .ExtWord =>
    let di := op &&& 7
    let src := s.d di
    .ok { s with d := Function.update s.d di (replace_word src (intToU16 (toI8 src))) }
  | .Bra => .ok (bcond s op true)
  | .Bcc => .ok (bcond s op (decide (s.sr &&& FLAG_C = 0)))
  | .Bcs => .ok (bcond s op (decide (s.sr &&& FLAG_C ≠ 0)))
  | .Bne => .ok (bcond s op (decide (s.sr &&& FLAG_Z = 0)))
  | .Beq => .ok (bcond s op (decide (s.sr &&& FLAG_Z ≠ 0)))
  | .Bpl => .ok (bcond s op (decide (s.sr &&& FLAG_N = 0)))
  | .Bmi => .ok (bcond s op (decide (s.sr &&& FLAG_N ≠ 0)))
  | .Bge =>
    let nv := s.sr &&& (FLAG_N ||| FLAG_V)
    .ok (bcond s op (decide (nv = 0 ∨ nv = FLAG_N ||| FLAG_V)))
  | .Blt =>
    let nv := s.sr &&& (FLAG_N ||| FLAG_V)
    .ok (bcond s op (decide (nv = FLAG_N ∨ nv = FLAG_V)))
  | .Bgt =>
    let nv := s.sr &&& (FLAG_N ||| FLAG_V)
    .ok (bcond s op (decide (s.sr &&& FLAG_Z = 0 ∧ (nv = 0 ∨ nv = FLAG_N ||| FLAG_V))))
  | .Ble =>
    let nv := s.sr &&& (FLAG_N ||| FLAG_V)
    .ok (bcond s op (decide (s.sr &&& FLAG_Z ≠ 0 ∨ nv = FLAG_N ∨ nv = FLAG_V)))
  | .Dbra =>
    let si := op &&& 7
    let ofs := toI16 (read16 s.mem s.pc)
    let l := s.d si
    let w := wsub 16 (l % 65536) 1
    let s := { s with d := Function.update s.d si (replace_word l w) }
    .ok { s with pc := if w ≠ 0xffff then intToU32 (toI32 s.pc + ofs)
                       else mask32 (s.pc + 2) }
  | .Bsr =>
    let (ofs, sz) := getBranchOffset op s.mem s.pc
    let s := { s with pc := mask32 (s.pc + sz) }
    let s := push32 s s.pc
    .ok { s with pc := intToU32 (toI32 (mask32 (startadr + 2)) + ofs) }
  | .JsrA =>
    let si := op &&& 7
    if op &&& 15 < 8 then
      let adr := s.a si
      let s := push32 s s.pc
      .ok { s with pc := adr }
    else .error (.notImplemented si)
  | .Rts =>
    let (v, s) := pop32 s
    .ok { s with pc := v }
  | .Rte =>
    let (v, s) := pop32 s
    .ok { s with pc := v }
  | .Trap =>
    let no := op &&& 0x000f
    let adr := read32 s.mem (0x0080 + no * 4)
    let s := push32 s s.pc
    .ok { s with pc := adr }
  | .Reset => .ok s
  | .Unknown => .error (.unknownOp startadr op)
  | .Cmp2Byte => .error (.unknownOp startadr op)

/-- Cpu::step: fetch the opcode word at PC, advance PC by 2, look up the
tag and dispatch.  A Rust panic is an `error` carrying the diagnostic. -/
def stepFn (s : State) : Except Fault State :=
  let op := read16 s.mem s.pc
  execInst { s with pc := mask32 (s.pc + 2) } s.pc op (INST op)

/-- Cpu::run_cycles: invoke step `n` times; a fatal condition aborts the
whole batch (the panic propagates out of the loop). -/
def runCycles : Nat → State → Except Fault State
  | 0, s => .ok s
  | n + 1, s => do
    let s2 ← stepFn s
    runCycles n s2

/-- The byte-count component (first tuple element) of disasm.rs
read_source8.  The text component and the extension-word values it prints
are irrelevant to instruction length, so only the count is modelled; it
depends only on the (mode, reg) pair. -/
def readSource8Sz (src m : Nat) : Nat :=
  match src with
  | 0 => 0
  | 2 => 0
  | 3 => 0
  | 5 => 2
  | 7 => match m with
    | 1 => 4
    | 4 => 2
    | _ => 0
  | _ => 0

/-- The byte-count component of disasm.rs read_source16 (mode 6 consumes
one extension word whether or not the full form is supported). -/
def readSource16Sz (src m : Nat) : Nat :=
  match src with
  | 0 => 0
  | 2 => 0
  | 3 => 0
  | 5 => 2
  | 6 => 2
  | 7 => match m with
    | 1 => 4
    | 4 => 2
    | _ => 0
  | _ => 0

/-- The byte-count component of disasm.rs read_source32. -/
def readSource32Sz (src m : Nat) : Nat :=
  match src with
  | 0 => 0
  | 1 => 0
  | 2 => 0
  | 3 => 0
  | 5 => 2
  | 6 => 2
  | 7 => match m with
    | 1 => 4
    | 4 => 4
    | _ => 0
  | _ => 0

/-- The byte-count component of disasm.rs write_destination8. -/
def writeDest8Sz (dst n : Nat) : Nat :=
  match dst with
  | 0 => 0
  | 2 => 0
  | 3 => 0
  | 5 => 2
  | 6 => 2
  | 7 => match n with
    | 1 => 4
    | _ => 0
  | _ => 0

/-- The byte-count component of disasm.rs write_destination16. -/
def writeDest16Sz (dst n : Nat) : Nat :=
  match dst with
  | 0 => 0
  | 1 => 0
  | 2 => 0
  | 3 => 0
  | 4 => 0
  | 5 => 2
  | 7 => match n with
    | 1 => 4
    | 4 => 0
    | _ => 0
  | _ => 0

/-- The byte-count component of disasm.rs write_destination32. -/
def writeDest32Sz (dst n : Nat) : Nat :=
  match dst with
  | 0 => 0
  | 1 => 0
  | 2 => 0
  | 3 => 0
  | 4 => 0
  | 5 => 2
  | 7 => match n with
    | 1 => 4
    | _ => 0
  | _ => 0

/-- The byte-length component of disasm.rs disasm: same opcode fetch and
table lookup as the interpreter, returning the total instruction length in
bytes, with each arm combining the sizes exactly as the source does
(the mnemonic string is not modelled).  Note the TstLong and ClrLong arms
measure their operand with the word-size helpers, as in the source. -/
def disasmSize (m : Mem) (adr : Nat) : Nat :=
  let op := read16 m adr
  let si := op &&& 7
  let st := (op >>> 3) &&& 7
  let dt6 := (op >>> 6) &&& 7
  let dt := (op >>> 3) &&& 7
  let di := (op >>> 9) &&& 7
  match INST op with
  | .Nop => 2
  | .MoveByte => 2 + readSource8Sz st si + writeDest8Sz dt6 di
  | .MoveWord => 2 + readSource16Sz st si + writeDest16Sz dt6 di
  | .MoveLong => 2 + readSource32Sz st si + writeDest32Sz dt6 di
  | .Moveq => 2
  | .MovemFrom => 4
  | .MovemTo => 4
  | .MoveToSrIm => 4
  | .MoveToSr => 2 + readSource16Sz st si
  | .MoveFromSr => 2 + writeDest16Sz dt si
  | .LeaDirect => 6
  | .LeaOffset => 4
  | .LeaOffsetD => 4
  | .LeaOffsetPc => 4
  | .ClrByte => 2 + writeDest8Sz dt si
  | .ClrWord => 2 + writeDest16Sz dt si
  | .ClrLong => 2 + writeDest16Sz dt si
  | .Swap => 2
  | .CmpByte => 2 + readSource8Sz st si + writeDest8Sz 0 di
  | .CmpWord => 2 + readSource16Sz st si + writeDest16Sz 0 di
  | .CmpLong => 2 + readSource32Sz st si + writeDest32Sz 0 di
  | .CmpiByte => 4 + writeDest8Sz dt si
  | .CmpiWord => 4 + writeDest16Sz dt si
  | .CmpaLong => 2 + readSource32Sz st si + writeDest32Sz 1 di
  | .CmpmByte => 2
  | .Cmp2Byte => 4 + readSource8Sz st si
  | .TstByte => 2 + readSource8Sz st si
  | .TstWord => 2 + readSource16Sz st si
  | .TstLong => 2 + readSource16Sz st si
  | .BtstIm => 4 + readSource16Sz st si
  | .BclrIm => 4 + writeDest16Sz dt si
  | .Bset => 2 + writeDest8Sz dt si
  | .BsetIm => 4 + writeDest16Sz dt si
  | .Reset => 2
  | .AddByte => 2 + readSource8Sz st si
  | .AddWord => 2 + readSource16Sz st si
  | .AddLong => 2 + readSource32Sz st si
  | .AddiByte => 4 + writeDest8Sz dt si
  | .AddiWord => 4 + writeDest16Sz dt si
  | .AddaLong => 2 + readSource32Sz st si
  | .AddqByte => 2 + writeDest8Sz dt si
  | .AddqWord => 2 + writeDest16Sz dt si
  | .AddqLong => 2 + writeDest32Sz dt si
  | .SubByte => 2 + readSource8Sz st si
  | .SubWord => 2 + readSource16Sz st si
  | .SubiByte => 4 + writeDest8Sz dt si
  | .SubaLong => 2 + readSource32Sz st si
  | .SubqWord => 2 + writeDest16Sz dt si
  | .SubqLong => 2 + writeDest32Sz dt si
  | .MuluWord => 2 + readSource16Sz st si
  | .AndByte => 2 + readSource8Sz st si
  | .AndWord => 2 + readSource16Sz st si
  | .AndLong => 2 + readSource32Sz st si
  | .AndiWord => 4 + writeDest16Sz dt si
  | .OrByte => 2 + readSource8Sz st si
  | .OrWord => 2 + readSource16Sz st si
  | .OriByte => 4 + writeDest8Sz dt si
  | .OriWord => 4 + writeDest16Sz dt si
  | .EorByte => 2 + writeDest8Sz dt si
  | .EoriByte => 4 + writeDest8Sz dt si
  | .EoriWord => 4 + writeDest16Sz dt si
  | .AslImByte => 2
  | .AslImWord => 2
  | .AslImLong => 2
  | .LsrImByte => 2
  | .LsrImWord => 2
  | .LslImWord => 2
  | .RorImWord => 2
  | .RorImLong => 2
  | .RolWord => 2
  | .RolImByte => 2
  | .ExtWord => 2
  | .Bra => 2 + (getBranchOffset op m (mask32 (adr + 2))).2
  | .Bcc => 2 + (getBranchOffset op m (mask32 (adr + 2))).2
  | .Bcs => 2 + (getBranchOffset op m (mask32 (adr + 2))).2
  | .Bne => 2 + (getBranchOffset op m (mask32 (adr + 2))).2
  | .Beq => 2 + (getBranchOffset op m (mask32 (adr + 2))).2
  | .Bpl => 2 + (getBranchOffset op m (mask32 (adr + 2))).2
  | .Bmi => 2 + (getBranchOffset op m (mask32 (adr + 2))).2
  | .Bge => 2 + (getBranchOffset op m (mask32 (adr + 2))).2
  | .Blt => 2 + (getBranchOffset op m (mask32 (adr + 2))).2
  | .Bgt => 2 + (getBranchOffset op m (mask32 (adr + 2))).2
  | .Ble => 2 + (getBranchOffset op m (mask32 (adr + 2))).2
  | .Dbra => 4
  | .Bsr => 2 + (getBranchOffset op m (mask32 (adr + 2))).2
  | .JsrA => if op &&& 15 < 8 then 2 else 4
  | .Rts => 2
  | .Rte => 2
  | .Trap => 2
  | .Unknown => 2

/-- Sign extension of an 8-bit value, as the specification words it for
the branch-offset rule (claim C7). -/
def signExt8 (b : Nat) : Int := if b < 128 then (b : Int) else (b : Int) - 256

/-- Sign extension of a 16-bit value (specification side). -/
def signExt16 (w : Nat) : Int := if w < 32768 then (w : Int) else (w : Int) - 65536

/-- Signed reinterpretation of a 32-bit value (specification side). -/
def signExt32 (l : Nat) : Int :=
  if l < 2147483648 then (l : Int) else (l : Int) - 4294967296

/-- The reference condition-code formulas of the specification for the CMP
family at width `w` bits (claim C4): `res = dst - src` with wraparound,
`C = (unsigned dst < src)`, `Z = (dst = src)`, `V` = sign bit of
`(src XOR dst) AND (res XOR dst)`, `N` = sign bit of `res`, placed at CCR
bits 0/2/1/3, the other SR bits (including X) preserved. -/
def specCmpSr (w sr src dst : Nat) : Nat :=
  let res := wsub w dst src
  (sr &&& 0xfff0) |||
    ((((if dst < src then FLAG_C else 0) ||| (if dst = src then FLAG_Z else 0)) |||
      (if ((src ^^^ dst) &&& (res ^^^ dst)) &&& 2 ^ (w - 1) ≠ 0 then FLAG_V else 0)) |||
     (if res &&& 2 ^ (w - 1) ≠ 0 then FLAG_N else 0))

/-- A flat memory holding the listed (address, byte) pairs and zero
elsewhere, for concrete scenarios. -/
def memOf (l : List (Nat × Nat)) : Mem := fun a => (l.lookup a).getD 0

/-- Memory for the C1 failing input: opcode 0x4ABC (`tst.l #imm`, with a
zero long immediate) at address 0x400. -/
def c1mem : Mem := memOf [(0x400, 0x4A), (0x401, 0xBC)]

/-- State fetching the C1 failing input. -/
def c1state : State := ⟨fun _ => 0, fun _ => 0, 0x400, 0, c1mem⟩

/-- Memory for C2: `movem.l <mask>, -(A0)` (opcode 0x48E0) with register
mask 0x00FF at address 0x400. -/
def c2mem : Mem := memOf [(0x400, 0x48), (0x401, 0xE0), (0x402, 0x00), (0x403, 0xFF)]

/-- State for C2: A0 = 0x1000 is the base; the other registers carry
sentinels distinguishing address from data registers. -/
def c2state : State :=
  ⟨fun i => 0xD0D0D000 + i % 8, fun i => if i = 0 then 0x1000 else 0xA0A0A000 + i % 8,
   0x400, 0, c2mem⟩

/-- Memory parametrised by the four instruction bytes at 0x400 (C4). -/
def c4mem (b0 b1 b2 b3 : Nat) : Mem :=
  memOf [(0x400, b0), (0x401, b1), (0x402, b2), (0x403, b3)]

/-- State for the C4 witnesses: distinct register values, X flag set. -/
def c4state (b0 b1 b2 b3 : Nat) : State :=
  ⟨fun i => if i = 0 then 100 else 200, fun i => if i = 0 then 300 else 77,
   0x400, 0x1F, c4mem b0 b1 b2 b3⟩

/-- The reset-vector memory of the specification scenario (C5):
bytes 00 10 00 00 00 00 04 00 at address 0. -/
def c5mem : Mem :=
  memOf [(0, 0x00), (1, 0x10), (2, 0x00), (3, 0x00), (4, 0x00), (5, 0x00), (6, 0x04), (7, 0x00)]

/-- Memory for the C6 witness: `bsr` with 8-bit displacement 0x10 at 0x400. -/
def c6mem : Mem := memOf [(0x400, 0x61), (0x401, 0x10)]

/-- State for the C6 witness: A7 = 0x1000. -/
def c6state : State := ⟨fun _ => 0, Function.update (fun _ => 0) 7 0x1000, 0x400, 0, c6mem⟩

/-- Memory for the C7 witness: bytes 12 34 56 78 at address 0. -/
def c7mem : Mem := memOf [(0, 0x12), (1, 0x34), (2, 0x56), (3, 0x78)]

/-- State for the C8 witness: register values with nonzero upper bits. -/
def c8state : State := ⟨fun _ => 0x12345678, fun _ => 0xABCD1234, 0, 0, fun _ => 0⟩

/-- State for the C9 witness: the opcode word 0xFFFF (tagged Unknown) at
PC = 0x400. -/
def c9state : State := ⟨fun _ => 0, fun _ => 0, 0x400, 0, memOf [(0x400, 0xFF), (0x401, 0xFF)]⟩

/-- State for C10: `andi.w #$00FF, SR` (opcode 0x027C) at 0x400 with
SR = 0x00FF. -/
def c10state : State :=
  ⟨fun _ => 0, fun _ => 0, 0x400, 0xFF, memOf [(0x400, 0x02), (0x401, 0x7C), (0x402, 0x00), (0x403, 0xFF)]⟩
/-- Every `mask_inst` rule's value lies inside its mask, so the set of
opcodes the source enumerates for it (`value` with arbitrary bits spread
over the masked-out positions) is exactly `\x7bx | x &&& mask = value\x7d`,
which is what `RulePat.hits` tests. -/
theorem instRules_wellFormed :
    instRules.all (fun r => match r.1 with
      | .mask m v => v &&& m == v && v < 65536 && m < 65536
      | .irange lo hi => decide (lo ≤ hi) && hi < 65536
      | .single v => v < 65536) = true := by decide

/-- Bytes read from the bus are below 256. -/
theorem read8_lt (m : Mem) (adr : Nat) : read8 m adr < 256 :=
  Nat.mod_lt _ (by norm_num)

/-- Words read from the bus are below 2^16. -/
theorem read16_lt (m : Mem) (adr : Nat) : read16 m adr < 65536 := by
  have h0 : read8 m adr <<< 8 < 2 ^ 16 := by
    rw [Nat.shiftLeft_eq]
    have := read8_lt m adr
    norm_num
    omega
  have h1 : read8 m (mask32 (adr + 1)) < 2 ^ 16 := by
    have := read8_lt m (mask32 (adr + 1))
    norm_num
    omega
  have := Nat.or_lt_two_pow h0 h1
  simpa [read16] using this

/-- Longs read from the bus are below 2^32. -/
theorem read32_lt (m : Mem) (adr : Nat) : read32 m adr < 4294967296 := by
  have b0 := read8_lt m adr
  have b1 := read8_lt m (mask32 (adr + 1))
  have b2 := read8_lt m (mask32 (adr + 2))
  have b3 := read8_lt m (mask32 (adr + 3))
  have h0 : read8 m adr <<< 24 < 2 ^ 32 := by rw [Nat.shiftLeft_eq]; omega
  have h1 : read8 m (mask32 (adr + 1)) <<< 16 < 2 ^ 32 := by rw [Nat.shiftLeft_eq]; omega
  have h2 : read8 m (mask32 (adr + 2)) <<< 8 < 2 ^ 32 := by rw [Nat.shiftLeft_eq]; omega
  have h3 : read8 m (mask32 (adr + 3)) < 2 ^ 32 := by omega
  have := Nat.or_lt_two_pow (Nat.or_lt_two_pow (Nat.or_lt_two_pow h0 h1) h2) h3
  simpa [read32, Nat.lor_assoc] using this

/-- Splicing a value below 2^8 into a masked-out low byte: the low byte of
the result is the new value. -/
theorem or_low_byte (x v : Nat) (hv : v < 256) :
    ((x &&& 0xffffff00) ||| v) &&& 0xff = v := by
  apply Nat.eq_of_testBit_eq
  intro i
  simp only [Nat.testBit_land, Nat.testBit_lor]
  rcases Nat.lt_or_ge i 8 with h | h
  · have hm : Nat.testBit 0xffffff00 i = false := by interval_cases i <;> decide
    have hl : Nat.testBit 0xff i = true := by interval_cases i <;> decide
    simp [hm, hl]
  · have hp : (2 : Nat) ^ 8 ≤ 2 ^ i := Nat.pow_le_pow_right (by norm_num) h
    have hv8 : v.testBit i = false := Nat.testBit_lt_two_pow (lt_of_lt_of_le hv hp)
    have hl : Nat.testBit 0xff i = false :=
      Nat.testBit_lt_two_pow (lt_of_lt_of_le (by norm_num) hp)
    simp [hv8, hl]

/-- Splicing a value below 2^8 into a masked-out low byte leaves bits 8..31
(the masked part) unchanged. -/
theorem or_high_byte (x v : Nat) (hv : v < 256) :
    ((x &&& 0xffffff00) ||| v) &&& 0xffffff00 = x &&& 0xffffff00 := by
  apply Nat.eq_of_testBit_eq
  intro i
  simp only [Nat.testBit_land, Nat.testBit_lor]
  rcases Nat.lt_or_ge i 8 with h | h
  · have hm : Nat.testBit 0xffffff00 i = false := by interval_cases i <;> decide
    simp [hm]
  · have hp : (2 : Nat) ^ 8 ≤ 2 ^ i := Nat.pow_le_pow_right (by norm_num) h
    have hv8 : v.testBit i = false := Nat.testBit_lt_two_pow (lt_of_lt_of_le hv hp)
    cases hx : x.testBit i <;> cases hm : Nat.testBit 0xffffff00 i <;> simp [hv8, hx, hm]

/-- Splicing a value below 2^16 into a masked-out low word: the low word of
the result is the new value. -/
theorem or_low_word (x v : Nat) (hv : v < 65536) :
    ((x &&& 0xffff0000) ||| v) &&& 0xffff = v := by
  apply Nat.eq_of_testBit_eq
  intro i
  simp only [Nat.testBit_land, Nat.testBit_lor]
  rcases Nat.lt_or_ge i 16 with h | h
  · have hm : Nat.testBit 0xffff0000 i = false := by interval_cases i <;> decide
    have hl : Nat.testBit 0xffff i = true := by interval_cases i <;> decide
    simp [hm, hl]
  · have hp : (2 : Nat) ^ 16 ≤ 2 ^ i := Nat.pow_le_pow_right (by norm_num) h
    have hv16 : v.testBit i = false := Nat.testBit_lt_two_pow (lt_of_lt_of_le hv hp)
    have hl : Nat.testBit 0xffff i = false :=
      Nat.testBit_lt_two_pow (lt_of_lt_of_le (by norm_num) hp)
    simp [hv16, hl]

/-- Splicing a value below 2^16 into a masked-out low word leaves the upper
half (bits 16..31) unchanged: no sign extension happens. -/
theorem or_high_word (x v : Nat) (hv : v < 65536) :
    ((x &&& 0xffff0000) ||| v) &&& 0xffff0000 = x &&& 0xffff0000 := by
  apply Nat.eq_of_testBit_eq
  intro i
  simp only [Nat.testBit_land, Nat.testBit_lor]
  rcases Nat.lt_or_ge i 16 with h | h
  · have hm : Nat.testBit 0xffff0000 i = false := by interval_cases i <;> decide
    simp [hm]
  · have hp : (2 : Nat) ^ 16 ≤ 2 ^ i := Nat.pow_le_pow_right (by norm_num) h
    have hv16 : v.testBit i = false := Nat.testBit_lt_two_pow (lt_of_lt_of_le hv hp)
    cases hx : x.testBit i <;> cases hm : Nat.testBit 0xffff0000 i <;> simp [hv16, hx, hm]

/-- For CCR bits (positions 0..3), `(sr &&& 0xfff0) ||| ccr` reads back the
ccr bit: the mask has zeros there. -/
theorem or_fff0_low_bit (sr c k : Nat) (hk : k < 4) :
    (sr &&& 0xfff0 ||| c).testBit k = c.testBit k := by
  have hm : Nat.testBit 0xfff0 k = false := by interval_cases k <;> decide
  simp [Nat.testBit_lor, Nat.testBit_land, hm]

/-- Bit 4 (the X flag) of `(sr &&& 0xfff0) ||| ccr` is the old X flag when
the ccr value stays below 16. -/
theorem or_fff0_bit4 (sr c : Nat) (hc : c < 16) :
    (sr &&& 0xfff0 ||| c).testBit 4 = sr.testBit 4 := by
  have hm : Nat.testBit 0xfff0 4 = true := by decide
  have hc4 : c.testBit 4 = false := Nat.testBit_lt_two_pow (by omega)
  simp [Nat.testBit_lor, Nat.testBit_land, hm, hc4]

/-- Big-endian byte decomposition followed by recomposition is reduction
modulo 2^32 (the §8 endian round-trip law, bit side). -/
theorem bytes_recompose (v : Nat) :
    ((v >>> 24) % 256) <<< 24 ||| ((v >>> 16) % 256) <<< 16 |||
      ((v >>> 8) % 256) <<< 8 ||| v % 256 = v % 4294967296 := by
  rw [show (256 : Nat) = 2 ^ 8 from by norm_num, show (4294967296 : Nat) = 2 ^ 32 from by norm_num]
  apply Nat.eq_of_testBit_eq
  intro i
  simp only [Nat.testBit_lor, Nat.testBit_shiftLeft, Nat.testBit_shiftRight,
    Nat.testBit_mod_two_pow]
  rcases Nat.lt_or_ge i 8 with h | h
  · rw [decide_eq_false (by omega : ¬ i ≥ 24), decide_eq_false (by omega : ¬ i ≥ 16),
      decide_eq_false (by omega : ¬ i ≥ 8), decide_eq_true (by omega : i < 8),
      decide_eq_true (by omega : i < 32)]
    simp
  rcases Nat.lt_or_ge i 16 with h2 | h2
  · rw [decide_eq_false (by omega : ¬ i ≥ 24), decide_eq_false (by omega : ¬ i ≥ 16),
      decide_eq_true (by omega : i ≥ 8), decide_eq_true (by omega : i - 8 < 8),
      decide_eq_false (by omega : ¬ i < 8), decide_eq_true (by omega : i < 32),
      show 8 + (i - 8) = i from by omega]
    simp
  rcases Nat.lt_or_ge i 24 with h3 | h3
  · rw [decide_eq_false (by omega : ¬ i ≥ 24), decide_eq_true (by omega : i ≥ 16),
      decide_eq_true (by omega : i - 16 < 8), decide_eq_false (by omega : ¬ i < 8),
      decide_eq_false (by omega : ¬ i - 8 < 8), decide_eq_true (by omega : i ≥ 8),
      decide_eq_true (by omega : i < 32), show 16 + (i - 16) = i from by omega]
    simp
  rcases Nat.lt_or_ge i 32 with h4 | h4
  · rw [decide_eq_true (by omega : i ≥ 24), decide_eq_true (by omega : i - 24 < 8),
      decide_eq_true (by omega : i ≥ 16), decide_eq_false (by omega : ¬ i - 16 < 8),
      decide_eq_true (by omega : i ≥ 8), decide_eq_false (by omega : ¬ i - 8 < 8),
      decide_eq_false (by omega : ¬ i < 8), decide_eq_true (by omega : i < 32),
      show 24 + (i - 24) = i from by omega]
    simp
  · rw [decide_eq_true (by omega : i ≥ 24), decide_eq_false (by omega : ¬ i - 24 < 8),
      decide_eq_true (by omega : i ≥ 16), decide_eq_false (by omega : ¬ i - 16 < 8),
      decide_eq_true (by omega : i ≥ 8), decide_eq_false (by omega : ¬ i - 8 < 8),
      decide_eq_false (by omega : ¬ i < 8), decide_eq_false (by omega : ¬ i < 32)]
    simp

/-- A long store (no address wrap) does not touch bytes outside
`[x, x+3]`. -/
theorem write32_outside (m : Mem) (x v adr : Nat) (hx : x + 3 < 4294967296)
    (h : adr < x ∨ x + 3 < adr) : write32 m x v adr = m adr := by
  have h1 : mask32 (x + 1) = x + 1 := by unfold mask32; omega
  have h2 : mask32 (x + 2) = x + 2 := by unfold mask32; omega
  have h3 : mask32 (x + 3) = x + 3 := by unfold mask32; omega
  simp only [write32]
  rw [h1, h2, h3]
  simp only [write8]
  rw [Function.update_noteq (by omega : adr ≠ x + 3),
    Function.update_noteq (by omega : adr ≠ x + 2),
    Function.update_noteq (by omega : adr ≠ x + 1),
    Function.update_noteq (by omega : adr ≠ x)]

/-- Endian round-trip: a long read back from where it was stored (no
address wrap) returns the value reduced modulo 2^32. -/
theorem read32_write32_same (m : Mem) (x v : Nat) (hx : x + 3 < 4294967296) :
    read32 (write32 m x v) x = v % 4294967296 := by
  have h1 : mask32 (x + 1) = x + 1 := by unfold mask32; omega
  have h2 : mask32 (x + 2) = x + 2 := by unfold mask32; omega
  have h3 : mask32 (x + 3) = x + 3 := by unfold mask32; omega
  simp only [read32, write32]
  rw [h1, h2, h3]
  simp only [read8, write8]
  rw [Function.update_noteq (by omega : x ≠ x + 3),
    Function.update_noteq (by omega : x ≠ x + 2),
    Function.update_noteq (by omega : x ≠ x + 1), Function.update_same,
    Function.update_noteq (by omega : x + 1 ≠ x + 3),
    Function.update_noteq (by omega : x + 1 ≠ x + 2), Function.update_same,
    Function.update_noteq (by omega : x + 2 ≠ x + 3), Function.update_same,
    Function.update_same]
  rw [Nat.mod_mod_of_dvd (v >>> 24) (dvd_refl 256), Nat.mod_mod_of_dvd (v >>> 16) (dvd_refl 256),
    Nat.mod_mod_of_dvd (v >>> 8) (dvd_refl 256), Nat.mod_mod_of_dvd v (dvd_refl 256)]
  exact bytes_recompose v

/-- A long read is unaffected by a long store to a disjoint (no-wrap)
range. -/
theorem read32_write32_ne (m : Mem) (x y v : Nat) (hx : x + 3 < 4294967296)
    (hy : y + 3 < 4294967296) (h : y + 3 < x ∨ x + 3 < y) :
    read32 (write32 m x v) y = read32 m y := by
  have h1 : mask32 (y + 1) = y + 1 := by unfold mask32; omega
  have h2 : mask32 (y + 2) = y + 2 := by unfold mask32; omega
  have h3 : mask32 (y + 3) = y + 3 := by unfold mask32; omega
  simp only [read32]
  rw [h1, h2, h3]
  simp only [read8]
  rw [write32_outside m x v y hx (by omega), write32_outside m x v (y + 1) hx (by omega),
    write32_outside m x v (y + 2) hx (by omega), write32_outside m x v (y + 3) hx (by omega)]

set_option maxRecDepth 4096 in
/-- Every opcode word with high byte 0x61 is tagged Bsr by the table. -/
theorem INST_bsr_byte : ∀ b : Fin 256, INST (0x6100 + b.val) = Opcode.Bsr := by decide

/-- C3 (counterexample): the built table maps index 0x46FC to MoveToSr,
not MoveToSrIm — the later MoveToSr mask rule (0xffc0/0x46c0, declared
after the singleton) overwrites the singleton assignment, so the claim as
stated is false at index 0x46FC. -/
theorem c3_counterexample :
    INST 0x46FC = Opcode.MoveToSr ∧ INST 0x46FC ≠ Opcode.MoveToSrIm := by decide

/-- C3 (amended): in the fully built table the singleton entries for NOP
(0x4E71), RTE (0x4E73), RTS (0x4E75) and RESET (0x4E70) map as declared,
while 0x46FC maps to MoveToSr because the later-declared MoveToSr mask rule
overwrites the MoveToSrIm singleton (later rules overwrite earlier ones). -/
theorem c3_singletons :
    INST 0x4E71 = Opcode.Nop ∧ INST 0x4E73 = Opcode.Rte ∧ INST 0x4E75 = Opcode.Rts ∧
    INST 0x4E70 = Opcode.Reset ∧ INST 0x46FC = Opcode.MoveToSr := by decide

/-- C1 (code bug): at the failing input `tst.l #imm` (opcode word 0x4ABC,
table tag TstLong) the disassembler reports a byte length of 4 (its
TstLong arm measures the operand with the word-size reader), while the
interpreter consumes the opcode word plus a 4-byte long immediate,
advancing PC from 0x400 to 0x406 — a 6-byte advance — so the lengths
disagree on an instruction the interpreter executes without error. -/
theorem c1_disasm_length_bug :
    INST (read16 c1mem 0x400) = Opcode.TstLong ∧
    disasmSize c1mem 0x400 = 4 ∧
    (stepFn c1state).map State.pc = .ok 0x406 ∧
    disasmSize c1mem 0x400 ≠ 0x406 - 0x400 :=
  ⟨by decide, by decide, by rfl, by decide⟩

/-- C9: whenever the table tags the fetched opcode word Unknown, step
fails fatally with a fault carrying the program counter and the opcode
word (the source's diagnostic line prints exactly these two values before
panicking), and the whole run_cycles batch aborts with that same fault; no
Unknown opcode is executed normally. -/
theorem c9_unknown_fatal (s : State)
    (h : INST (read16 s.mem s.pc) = Opcode.Unknown) :
    stepFn s = .error (Fault.unknownOp s.pc (read16 s.mem s.pc)) ∧
    ∀ n, runCycles (n + 1) s = .error (Fault.unknownOp s.pc (read16 s.mem s.pc)) := by
  have h1 : stepFn s = .error (Fault.unknownOp s.pc (read16 s.mem s.pc)) := by
    simp only [stepFn, h, execInst]
  refine ⟨h1, fun n => ?_⟩
  simp only [runCycles, h1]
  rfl

/-- C9 witness: the opcode word 0xFFFF is tagged Unknown and stepping the
concrete state faults with its PC and opcode word. -/
theorem c9_unknown_fatal_witness :
    INST (read16 c9state.mem c9state.pc) = Opcode.Unknown ∧
    stepFn c9state = .error (Fault.unknownOp 0x400 0xFFFF) :=
  ⟨by decide, (c9_unknown_fatal c9state (by decide)).1⟩

/-- C5: for every bus state, reset sets SR to 0, A7 to the big-endian long
at address 0, PC to the long at address 4, and leaves every other register
at its construction-time zero; on the concrete reset-vector memory this
gives A7 = 0x00100000, PC = 0x00000400, SR = 0. -/
theorem c5_reset (m : Mem) :
    (resetFn (newState m)).sr = 0 ∧
    (resetFn (newState m)).a 7 = read32 m 0 ∧
    (resetFn (newState m)).pc = read32 m 4 ∧
    (∀ i, (resetFn (newState m)).d i = 0) ∧
    (∀ i, i ≠ 7 → (resetFn (newState m)).a i = 0) ∧
    (resetFn (newState c5mem)).a 7 = 0x00100000 ∧
    (resetFn (newState c5mem)).pc = 0x00000400 ∧
    (resetFn (newState c5mem)).sr = 0 := by
  refine ⟨rfl, ?_, rfl, fun i => rfl, fun i hi => ?_, by decide, by decide, by decide⟩
  · simp [resetFn, newState]
  · simp [resetFn, newState, Function.update_noteq hi]

/-- C5 witness: a non-stack register stays zero after reset on the
concrete reset-vector memory. -/
theorem c5_reset_witness : (3 : Nat) ≠ 7 ∧ (resetFn (newState c5mem)).a 3 = 0 :=
  ⟨by decide, (c5_reset c5mem).2.2.2.2.1 3 (by decide)⟩

/-- C7: the branch-offset decoder.  With b the low byte of the opcode:
b = 0 fetches a sign-extended 16-bit word (consuming 2 bytes), b = 0xFF
fetches a signed 32-bit long (consuming 4 bytes), and otherwise the offset
is the sign extension of b itself (consuming 0 bytes). -/
theorem c7_branch_offset (op : Nat) (m : Mem) (adr : Nat) :
    (op &&& 0xff = 0 → getBranchOffset op m adr = (signExt16 (read16 m adr), 2)) ∧
    (op &&& 0xff = 0xff → getBranchOffset op m adr = (signExt32 (read32 m adr), 4)) ∧
    (op &&& 0xff ≠ 0 → op &&& 0xff ≠ 0xff →
      getBranchOffset op m adr = (signExt8 (op &&& 0xff), 0)) := by
  refine ⟨fun h => ?_, fun h => ?_, fun h1 h2 => ?_⟩
  · have hr := read16_lt m adr
    simp [getBranchOffset, h, toI16, signExt16, Nat.mod_eq_of_lt hr]
  · have hr := read32_lt m adr
    simp [getBranchOffset, h, toI32, signExt32, Nat.mod_eq_of_lt hr]
  · have hb : op &&& 0xff < 256 := by
      have h8 : op &&& 255 = op % 256 := Nat.and_pow_two_sub_one_eq_mod op 8
      have : op % 256 < 256 := Nat.mod_lt _ (by norm_num)
      omega
    simp [getBranchOffset, h1, h2, toI8, signExt8, Nat.mod_eq_of_lt hb]

/-- C7 witness: the three decoder branches at concrete opcodes over the
concrete memory 12 34 56 78. -/
theorem c7_branch_offset_witness :
    (0x6000 &&& 0xff = 0) ∧ getBranchOffset 0x6000 c7mem 0 = (signExt16 (read16 c7mem 0), 2) ∧
    (0x60FF &&& 0xff = 0xff) ∧ getBranchOffset 0x60FF c7mem 0 = (signExt32 (read32 c7mem 0), 4) ∧
    (0x6010 &&& 0xff ≠ 0) ∧ (0x6010 &&& 0xff ≠ 0xff) ∧
    getBranchOffset 0x6010 c7mem 0 = (signExt8 (0x6010 &&& 0xff), 0) :=
  ⟨by decide, (c7_branch_offset 0x6000 c7mem 0).1 (by decide),
   by decide, (c7_branch_offset 0x60FF c7mem 0).2.1 (by decide),
   by decide, by decide, (c7_branch_offset 0x6010 c7mem 0).2.2 (by decide) (by decide)⟩

/-- C8: partial-width register writes of the EA unit.  A byte write to a
data register (mode 0) stores `replace_byte`, so the low 8 bits of the
register become the value and the masked bits 8..31 are unchanged; a word
write to a data register (mode 0) or to an address register (mode 1)
stores `replace_word`, so the low 16 bits become the value and the upper
half is unchanged — in particular no sign-extension happens on the
address-register word write. -/
theorem c8_partial_width (s : State) (n v : Nat) :
    (v < 256 →
      write_destination8 s 0 n v =
        .ok { s with d := Function.update s.d n (replace_byte (s.d n) v) } ∧
      replace_byte (s.d n) v &&& 0xff = v ∧
      replace_byte (s.d n) v &&& 0xffffff00 = s.d n &&& 0xffffff00) ∧
    (v < 65536 →
      write_destination16 s 0 n v =
        .ok { s with d := Function.update s.d n (replace_word (s.d n) v) } ∧
      replace_word (s.d n) v &&& 0xffff = v ∧
      replace_word (s.d n) v &&& 0xffff0000 = s.d n &&& 0xffff0000) ∧
    (v < 65536 →
      write_destination16 s 1 n v =
        .ok { s with a := Function.update s.a n (replace_word (s.a n) v) } ∧
      replace_word (s.a n) v &&& 0xffff = v ∧
      replace_word (s.a n) v &&& 0xffff0000 = s.a n &&& 0xffff0000) :=
  ⟨fun hv => ⟨rfl, or_low_byte _ _ hv, or_high_byte _ _ hv⟩,
   fun hv => ⟨rfl, or_low_word _ _ hv, or_high_word _ _ hv⟩,
   fun hv => ⟨rfl, or_low_word _ _ hv, or_high_word _ _ hv⟩⟩

/-- C8 witness: concrete partial-width writes on registers with nonzero
upper bits. -/
theorem c8_partial_width_witness :
    (0xAB : Nat) < 256 ∧ (0xABCD : Nat) < 65536 ∧
    replace_byte (c8state.d 0) 0xAB &&& 0xff = 0xAB ∧
    replace_byte (c8state.d 0) 0xAB &&& 0xffffff00 = c8state.d 0 &&& 0xffffff00 ∧
    replace_word (c8state.a 0) 0xABCD &&& 0xffff0000 = c8state.a 0 &&& 0xffff0000 :=
  ⟨by decide, by decide,
   ((c8_partial_width c8state 0 0xAB).1 (by decide)).2.1,
   ((c8_partial_width c8state 0 0xAB).1 (by decide)).2.2,
   ((c8_partial_width c8state 0 0xABCD).2.2 (by decide)).2.2⟩

/-- C10 (counterexample): executing opcode 0x027C with SR = 0x00FF and
immediate 0x00FF does not set SR to SR AND imm (= 0x00FF): the handler
afterwards rebuilds the N/Z/V/C bits from the result, giving 0x00F0. -/
theorem c10_counterexample :
    read16 c10state.mem c10state.pc = 0x027C ∧
    read16 c10state.mem (mask32 (c10state.pc + 2)) = 0x00FF ∧
    c10state.sr &&& 0x00FF = 0x00FF ∧
    (stepFn c10state).map State.sr = .ok 0x00F0 ∧
    (0x00F0 : Nat) ≠ 0x00FF :=
  ⟨by decide, by decide, by decide, by rfl, by decide⟩

/-- C10 (amended): executing opcode 0x027C (AndiWord with destination
mode 7, register 4) reads the current SR via the PC-advance-suppressed EA
word reader, stores the AND result into SR via the EA word writer, then
replaces the N/Z/V/C bits of that result per set_and_sr (Z from the
result, N from its sign bit, V and C cleared): the final SR is
`set_and_sr (SR AND imm) ...`, PC advances by exactly 4, and no memory or
other register is modified. -/
theorem c10_andi_sr (s : State) (imm : Nat)
    (hop : read16 s.mem s.pc = 0x027C)
    (himm : read16 s.mem (mask32 (s.pc + 2)) = imm) :
    read_source16_incpc s 7 4 false = .ok (s.sr, s) ∧
    write_destination16 s 7 4 imm = .ok { s with sr := imm } ∧
    stepFn s = .ok { s with sr := set_and_sr (s.sr &&& imm) (decide (s.sr &&& imm = 0)) (decide ((s.sr &&& imm) &&& 0x8000 ≠ 0)),
                            pc := mask32 (s.pc + 4) } := by
  have hI : INST 0x027C = Opcode.AndiWord := by decide
  have e1 : (0x027C : Nat) &&& 7 = 4 := by decide
  have e2 : (0x027C : Nat) >>> 3 &&& 7 = 7 := by decide
  refine ⟨rfl, rfl, ?_⟩
  simp only [stepFn, hop, hI, execInst, e1, e2, himm]
  norm_num [read_source16_incpc, write_destination16, set_and_sr, Except.instMonad,
    Except.bind, FLAG_Z, FLAG_N, State.mk.injEq, mask32]

/-- C10 witness: the amended SR update at the concrete state. -/
theorem c10_andi_sr_witness :
    read16 c10state.mem c10state.pc = 0x027C ∧
    read16 c10state.mem (mask32 (c10state.pc + 2)) = 0x00FF ∧
    stepFn c10state = .ok { c10state with sr := set_and_sr (c10state.sr &&& 0x00FF) (decide (c10state.sr &&& 0x00FF = 0)) (decide ((c10state.sr &&& 0x00FF) &&& 0x8000 ≠ 0)),
                                          pc := mask32 (c10state.pc + 4) } :=
  ⟨by decide, by decide, (c10_andi_sr c10state 0x00FF (by decide) (by decide)).2.2⟩

/-- Cpu::set_cmp_sr places its four Boolean arguments exactly at CCR bits
0 (C), 2 (Z), 1 (V), 3 (N), and preserves bit 4 (X). -/
theorem set_cmp_sr_bits (sr : Nat) (c z v n : Bool) :
    (set_cmp_sr sr c z v n).testBit 0 = c ∧
    (set_cmp_sr sr c z v n).testBit 2 = z ∧
    (set_cmp_sr sr c z v n).testBit 1 = v ∧
    (set_cmp_sr sr c z v n).testBit 3 = n ∧
    (set_cmp_sr sr c z v n).testBit 4 = sr.testBit 4 := by
  cases c <;> cases z <;> cases v <;> cases n <;>
    refine ⟨?_, ?_, ?_, ?_, ?_⟩ <;> simp only [set_cmp_sr] <;>
    first
    | (rw [or_fff0_low_bit sr _ 0 (by norm_num)]; decide)
    | (rw [or_fff0_low_bit sr _ 1 (by norm_num)]; decide)
    | (rw [or_fff0_low_bit sr _ 2 (by norm_num)]; decide)
    | (rw [or_fff0_low_bit sr _ 3 (by norm_num)]; decide)
    | rw [or_fff0_bit4 sr _ (by decide)]

/-- The reference CCR word of the specification coincides with the
source's set_cmp_sr applied to the decided claim formulas. -/
theorem specCmpSr_eq_set (w sr src dst : Nat) :
    specCmpSr w sr src dst =
      set_cmp_sr sr (decide (dst < src)) (decide (dst = src))
        (decide (((src ^^^ dst) &&& (wsub w dst src ^^^ dst)) &&& 2 ^ (w - 1) ≠ 0))
        (decide (wsub w dst src &&& 2 ^ (w - 1) ≠ 0)) := by
  simp only [specCmpSr, set_cmp_sr, decide_eq_true_eq]

/-- The reference CCR word places its bits exactly as claimed: C at bit 0,
Z at bit 2, V at bit 1, N at bit 3, and bit 4 (X) equal to the old SR's
bit 4. -/
theorem specCmpSr_bits (w sr src dst : Nat) :
    (specCmpSr w sr src dst).testBit 0 = decide (dst < src) ∧
    (specCmpSr w sr src dst).testBit 2 = decide (dst = src) ∧
    (specCmpSr w sr src dst).testBit 1 = decide (((src ^^^ dst) &&& (wsub w dst src ^^^ dst)) &&& 2 ^ (w - 1) ≠ 0) ∧
    (specCmpSr w sr src dst).testBit 3 = decide (wsub w dst src &&& 2 ^ (w - 1) ≠ 0) ∧
    (specCmpSr w sr src dst).testBit 4 = sr.testBit 4 := by
  rw [specCmpSr_eq_set]
  exact set_cmp_sr_bits sr _ _ _ _

/-- C4: the CMP family sets the condition codes to exactly the reference
formulas.  For every machine state (hence for every pair of operand
values), executing CMP.B/W/L (register forms), CMPI.B/W, CMPA.L or CMPM.B
leaves all operands unwritten (CMPM only postincrements its address
registers) and sets SR to the reference CCR `specCmpSr`, whose bits are
exactly C = (unsigned dst < src) at bit 0, Z = (dst = src) at bit 2,
V = sign bit of ((src XOR dst) AND (res XOR dst)) at bit 1, N = sign bit
of res at bit 3 for `res = dst - src` with wraparound, with the X flag
(bit 4) preserved. -/
theorem c4_cmp_flags (s : State) :
    (read16 s.mem s.pc = 0xB001 → stepFn s = .ok { s with pc := mask32 (s.pc + 2), sr := specCmpSr 8 s.sr (s.d 1 % 256) (s.d 0 % 256) }) ∧
    (read16 s.mem s.pc = 0xB041 → stepFn s = .ok { s with pc := mask32 (s.pc + 2), sr := specCmpSr 16 s.sr (s.d 1 % 65536) (s.d 0 % 65536) }) ∧
    (read16 s.mem s.pc = 0xB081 → stepFn s = .ok { s with pc := mask32 (s.pc + 2), sr := specCmpSr 32 s.sr (s.d 1) (s.d 0) }) ∧
    (read16 s.mem s.pc = 0x0C00 → stepFn s = .ok { s with pc := mask32 (mask32 (s.pc + 2) + 2), sr := specCmpSr 8 s.sr (read16 s.mem (mask32 (s.pc + 2)) % 256) (s.d 0 % 256) }) ∧
    (read16 s.mem s.pc = 0x0C40 → stepFn s = .ok { s with pc := mask32 (mask32 (s.pc + 2) + 2), sr := specCmpSr 16 s.sr (read16 s.mem (mask32 (s.pc + 2))) (s.d 0 % 65536) }) ∧
    (read16 s.mem s.pc = 0xB1C1 → stepFn s = .ok { s with pc := mask32 (s.pc + 2), sr := specCmpSr 32 s.sr (s.d 1) (s.a 0) }) ∧
    (read16 s.mem s.pc = 0xB109 → stepFn s = .ok { s with a := Function.update (Function.update s.a 1 (mask32 (s.a 1 + 1))) 0 (mask32 (s.a 0 + 1)), pc := mask32 (s.pc + 2), sr := specCmpSr 8 s.sr (read8 s.mem (s.a 1)) (read8 s.mem (s.a 0)) }) ∧
    (∀ w2 sr2 src2 dst2 : Nat,
      (specCmpSr w2 sr2 src2 dst2).testBit 0 = decide (dst2 < src2) ∧
      (specCmpSr w2 sr2 src2 dst2).testBit 2 = decide (dst2 = src2) ∧
      (specCmpSr w2 sr2 src2 dst2).testBit 1 = decide (((src2 ^^^ dst2) &&& (wsub w2 dst2 src2 ^^^ dst2)) &&& 2 ^ (w2 - 1) ≠ 0) ∧
      (specCmpSr w2 sr2 src2 dst2).testBit 3 = decide (wsub w2 dst2 src2 &&& 2 ^ (w2 - 1) ≠ 0) ∧
      (specCmpSr w2 sr2 src2 dst2).testBit 4 = sr2.testBit 4) := by
  refine ⟨fun hop => ?_, fun hop => ?_, fun hop => ?_, fun hop => ?_, fun hop => ?_,
    fun hop => ?_, fun hop => ?_, fun w2 sr2 src2 dst2 => specCmpSr_bits w2 sr2 src2 dst2⟩
  · have hI : INST 0xB001 = Opcode.CmpByte := by decide
    have e1 : (0xB001 : Nat) &&& 7 = 1 := by decide
    have e2 : (0xB001 : Nat) >>> 3 &&& 7 = 0 := by decide
    have e3 : (0xB001 : Nat) >>> 9 &&& 7 = 0 := by decide
    simp only [stepFn, hop, hI, execInst, e1, e2, e3]
    norm_num [read_source8, read_source8_incpc, Except.instMonad, Except.bind,
      set_cmp_sr, specCmpSr, FLAG_C, FLAG_V, FLAG_Z, FLAG_N]
  · have hI : INST 0xB041 = Opcode.CmpWord := by decide
    have e1 : (0xB041 : Nat) &&& 7 = 1 := by decide
    have e2 : (0xB041 : Nat) >>> 3 &&& 7 = 0 := by decide
    have e3 : (0xB041 : Nat) >>> 9 &&& 7 = 0 := by decide
    simp only [stepFn, hop, hI, execInst, e1, e2, e3]
    norm_num [read_source16, read_source16_incpc, Except.instMonad, Except.bind,
      set_cmp_sr, specCmpSr, FLAG_C, FLAG_V, FLAG_Z, FLAG_N]
  · have hI : INST 0xB081 = Opcode.CmpLong := by decide
    have e1 : (0xB081 : Nat) &&& 7 = 1 := by decide
    have e2 : (0xB081 : Nat) >>> 3 &&& 7 = 0 := by decide
    have e3 : (0xB081 : Nat) >>> 9 &&& 7 = 0 := by decide
    simp only [stepFn, hop, hI, execInst, e1, e2, e3]
    norm_num [read_source32, read_source32_incpc, Except.instMonad, Except.bind,
      set_cmp_sr, specCmpSr, FLAG_C, FLAG_V, FLAG_Z, FLAG_N]
  · have hI : INST 0x0C00 = Opcode.CmpiByte := by decide
    have e1 : (0x0C00 : Nat) &&& 7 = 0 := by decide
    have e2 : (0x0C00 : Nat) >>> 3 &&& 7 = 0 := by decide
    simp only [stepFn, hop, hI, execInst, e1, e2]
    norm_num [read_source8, read_source8_incpc, Except.instMonad, Except.bind,
      set_cmp_sr, specCmpSr, FLAG_C, FLAG_V, FLAG_Z, FLAG_N]
  · have hI : INST 0x0C40 = Opcode.CmpiWord := by decide
    have e1 : (0x0C40 : Nat) &&& 7 = 0 := by decide
    have e2 : (0x0C40 : Nat) >>> 3 &&& 7 = 0 := by decide
    simp only [stepFn, hop, hI, execInst, e1, e2]
    norm_num [read_source16, read_source16_incpc, Except.instMonad, Except.bind,
      set_cmp_sr, specCmpSr, FLAG_C, FLAG_V, FLAG_Z, FLAG_N]
  · have hI : INST 0xB1C1 = Opcode.CmpaLong := by decide
    have e1 : (0xB1C1 : Nat) &&& 7 = 1 := by decide
    have e2 : (0xB1C1 : Nat) >>> 3 &&& 7 = 0 := by decide
    have e3 : (0xB1C1 : Nat) >>> 9 &&& 7 = 0 := by decide
    simp only [stepFn, hop, hI, execInst, e1, e2, e3]
    norm_num [read_source32, read_source32_incpc, Except.instMonad, Except.bind,
      set_cmp_sr, specCmpSr, FLAG_C, FLAG_V, FLAG_Z, FLAG_N]
  · have hI : INST 0xB109 = Opcode.CmpmByte := by decide
    have e1 : (0xB109 : Nat) &&& 7 = 1 := by decide
    have e3 : (0xB109 : Nat) >>> 9 &&& 7 = 0 := by decide
    simp only [stepFn, hop, hI, execInst, e1, e3]
    norm_num [hop, e1, e3, Except.instMonad, Except.bind, set_cmp_sr, specCmpSr,
      FLAG_C, FLAG_V, FLAG_Z, FLAG_N,
      Function.update_noteq (show (0 : Nat) ≠ 1 from by decide)]

/-- C4 witness: each CMP-family opcode fetched and executed at a concrete
state with distinct register values and the X flag set. -/
theorem c4_cmp_flags_witness :
    read16 (c4state 0xB0 0x01 0 0).mem (c4state 0xB0 0x01 0 0).pc = 0xB001 ∧
    stepFn (c4state 0xB0 0x01 0 0) = .ok { c4state 0xB0 0x01 0 0 with pc := mask32 ((c4state 0xB0 0x01 0 0).pc + 2), sr := specCmpSr 8 (c4state 0xB0 0x01 0 0).sr ((c4state 0xB0 0x01 0 0).d 1 % 256) ((c4state 0xB0 0x01 0 0).d 0 % 256) } ∧
    read16 (c4state 0xB0 0x41 0 0).mem (c4state 0xB0 0x41 0 0).pc = 0xB041 ∧
    stepFn (c4state 0xB0 0x41 0 0) = .ok { c4state 0xB0 0x41 0 0 with pc := mask32 ((c4state 0xB0 0x41 0 0).pc + 2), sr := specCmpSr 16 (c4state 0xB0 0x41 0 0).sr ((c4state 0xB0 0x41 0 0).d 1 % 65536) ((c4state 0xB0 0x41 0 0).d 0 % 65536) } ∧
    read16 (c4state 0xB0 0x81 0 0).mem (c4state 0xB0 0x81 0 0).pc = 0xB081 ∧
    stepFn (c4state 0xB0 0x81 0 0) = .ok { c4state 0xB0 0x81 0 0 with pc := mask32 ((c4state 0xB0 0x81 0 0).pc + 2), sr := specCmpSr 32 (c4state 0xB0 0x81 0 0).sr ((c4state 0xB0 0x81 0 0).d 1) ((c4state 0xB0 0x81 0 0).d 0) } ∧
    read16 (c4state 0x0C 0x00 0x00 0x42).mem (c4state 0x0C 0x00 0x00 0x42).pc = 0x0C00 ∧
    stepFn (c4state 0x0C 0x00 0x00 0x42) = .ok { c4state 0x0C 0x00 0x00 0x42 with pc := mask32 (mask32 ((c4state 0x0C 0x00 0x00 0x42).pc + 2) + 2), sr := specCmpSr 8 (c4state 0x0C 0x00 0x00 0x42).sr (read16 (c4state 0x0C 0x00 0x00 0x42).mem (mask32 ((c4state 0x0C 0x00 0x00 0x42).pc + 2)) % 256) ((c4state 0x0C 0x00 0x00 0x42).d 0 % 256) } ∧
    read16 (c4state 0x0C 0x40 0x12 0x34).mem (c4state 0x0C 0x40 0x12 0x34).pc = 0x0C40 ∧
    stepFn (c4state 0x0C 0x40 0x12 0x34) = .ok { c4state 0x0C 0x40 0x12 0x34 with pc := mask32 (mask32 ((c4state 0x0C 0x40 0x12 0x34).pc + 2) + 2), sr := specCmpSr 16 (c4state 0x0C 0x40 0x12 0x34).sr (read16 (c4state 0x0C 0x40 0x12 0x34).mem (mask32 ((c4state 0x0C 0x40 0x12 0x34).pc + 2))) ((c4state 0x0C 0x40 0x12 0x34).d 0 % 65536) } ∧
    read16 (c4state 0xB1 0xC1 0 0).mem (c4state 0xB1 0xC1 0 0).pc = 0xB1C1 ∧
    stepFn (c4state 0xB1 0xC1 0 0) = .ok { c4state 0xB1 0xC1 0 0 with pc := mask32 ((c4state 0xB1 0xC1 0 0).pc + 2), sr := specCmpSr 32 (c4state 0xB1 0xC1 0 0).sr ((c4state 0xB1 0xC1 0 0).d 1) ((c4state 0xB1 0xC1 0 0).a 0) } ∧
    read16 (c4state 0xB1 0x09 0 0).mem (c4state 0xB1 0x09 0 0).pc = 0xB109 ∧
    stepFn (c4state 0xB1 0x09 0 0) = .ok { c4state 0xB1 0x09 0 0 with a := Function.update (Function.update (c4state 0xB1 0x09 0 0).a 1 (mask32 ((c4state 0xB1 0x09 0 0).a 1 + 1))) 0 (mask32 ((c4state 0xB1 0x09 0 0).a 0 + 1)), pc := mask32 ((c4state 0xB1 0x09 0 0).pc + 2), sr := specCmpSr 8 (c4state 0xB1 0x09 0 0).sr (read8 (c4state 0xB1 0x09 0 0).mem ((c4state 0xB1 0x09 0 0).a 1)) (read8 (c4state 0xB1 0x09 0 0).mem ((c4state 0xB1 0x09 0 0).a 0)) } :=
  ⟨by decide, (c4_cmp_flags (c4state 0xB0 0x01 0 0)).1 (by decide),
   by decide, (c4_cmp_flags (c4state 0xB0 0x41 0 0)).2.1 (by decide),
   by decide, (c4_cmp_flags (c4state 0xB0 0x81 0 0)).2.2.1 (by decide),
   by decide, (c4_cmp_flags (c4state 0x0C 0x00 0x00 0x42)).2.2.2.1 (by decide),
   by decide, (c4_cmp_flags (c4state 0x0C 0x40 0x12 0x34)).2.2.2.2.1 (by decide),
   by decide, (c4_cmp_flags (c4state 0xB1 0xC1 0 0)).2.2.2.2.2.1 (by decide),
   by decide, (c4_cmp_flags (c4state 0xB1 0x09 0 0)).2.2.2.2.2.2.1 (by decide)⟩

/-- C6: for every state and every BSR encoding (opcode 0x6100 + b), step
computes the branch offset, advances PC past the displacement words,
decrements A7 by 4 (u32 wrap), writes the post-displacement PC — the
return address — as a 32-bit long at the new A7, and sets PC to
startPC + 2 + offset (as i32 wrap-add), where startPC is the address of
the BSR opcode word; data registers, the other address registers and SR
are untouched. -/
theorem c6_bsr (s : State) (b : Nat) (hb : b < 256)
    (hop : read16 s.mem s.pc = 0x6100 + b) :
    ∃ s2, stepFn s = .ok s2 ∧
      s2.d = s.d ∧ s2.sr = s.sr ∧
      s2.a 7 = mask32 (s.a 7 + 4294967292) ∧
      (∀ i, i ≠ 7 → s2.a i = s.a i) ∧
      s2.mem = write32 s.mem (mask32 (s.a 7 + 4294967292)) (mask32 (mask32 (s.pc + 2) + (getBranchOffset (0x6100 + b) s.mem (mask32 (s.pc + 2))).2)) ∧
      s2.pc = intToU32 (toI32 (mask32 (s.pc + 2)) + (getBranchOffset (0x6100 + b) s.mem (mask32 (s.pc + 2))).1) := by
  have hI : INST (0x6100 + b) = Opcode.Bsr := INST_bsr_byte ⟨b, hb⟩
  rcases hg : getBranchOffset (0x6100 + b) s.mem (mask32 (s.pc + 2)) with ⟨ofs, sz⟩
  have hstep : stepFn s =
      .ok (State.mk s.d (Function.update s.a 7 (mask32 (s.a 7 + 4294967292)))
        (intToU32 (toI32 (mask32 (s.pc + 2)) + ofs)) s.sr
        (write32 s.mem (mask32 (s.a 7 + 4294967292)) (mask32 (mask32 (s.pc + 2) + sz)))) := by
    simp only [stepFn, hop, hI, execInst, hg, push32]
  refine ⟨_, hstep, ?_, ?_, ?_, ?_, ?_, ?_⟩
  · exact rfl
  · exact rfl
  · simp
  · intro i hi
    simp [Function.update_noteq hi]
  · simp
  · simp

/-- C6 witness: the BSR with 8-bit displacement 0x10 at the concrete
state (A7 = 0x1000, PC = 0x400). -/
theorem c6_bsr_witness :
    (0x10 : Nat) < 256 ∧ read16 c6state.mem c6state.pc = 0x6100 + 0x10 ∧
    (∃ s2, stepFn c6state = .ok s2 ∧
      s2.d = c6state.d ∧ s2.sr = c6state.sr ∧
      s2.a 7 = mask32 (c6state.a 7 + 4294967292) ∧
      (∀ i, i ≠ 7 → s2.a i = c6state.a i) ∧
      s2.mem = write32 c6state.mem (mask32 (c6state.a 7 + 4294967292)) (mask32 (mask32 (c6state.pc + 2) + (getBranchOffset (0x6100 + 0x10) c6state.mem (mask32 (c6state.pc + 2))).2)) ∧
      s2.pc = intToU32 (toI32 (mask32 (c6state.pc + 2)) + (getBranchOffset (0x6100 + 0x10) c6state.mem (mask32 (c6state.pc + 2))).1)) :=
  ⟨by decide, by decide, c6_bsr c6state 0x10 (by decide) (by decide)⟩

/-- C2 (counterexample): with mask 0x00FF, `movem.l -(A0)` stores the
ADDRESS registers, not D0-D7: at the concrete state (A0 = 0x1000, D7 =
0xD0D0D007, A7 = 0xA0A0A007) the long at the lowest written address
0xFE0 is A0's original value 0x1000 — not D7 — and the long at the
highest written address 0xFFC is A7's value; A0 ends decremented by 32. -/
theorem c2_counterexample :
    read16 c2state.mem c2state.pc = 0x48E0 ∧
    read16 c2state.mem (mask32 (c2state.pc + 2)) = 0x00FF ∧
    c2state.d 7 = 0xD0D0D007 ∧ c2state.a 0 = 0x1000 ∧ c2state.a 7 = 0xA0A0A007 ∧
    (stepFn c2state).map (fun t => (read32 t.mem 0xFE0, read32 t.mem 0xFFC, t.a 0)) =
      .ok (0x1000, 0xA0A0A007, 0xFE0) ∧
    (0x1000 : Nat) ≠ 0xD0D0D007 :=
  ⟨by decide, by decide, by decide, by decide, by decide, by rfl, by decide⟩

/-- C2 (amended): executing MOVEM.L with the predecrement destination form
on base register A0 and register mask 0x00FF stores the eight 32-bit
ADDRESS registers, A7 first at the highest written address (A0-4) down to
A0's original value at the lowest written address (A0-32) — i.e. the long
stored at A0-32+4k is the original value of Ak — and leaves A0 decremented
by 32 from its initial value; PC advances over the opcode and mask words
and the data registers and SR are untouched. -/
theorem c2_movem_from_aregs (s : State)
    (hop : read16 s.mem s.pc = 0x48E0)
    (hbits : read16 s.mem (mask32 (s.pc + 2)) = 0x00FF)
    (ha0 : 32 ≤ s.a 0) (ha0b : s.a 0 < 4294967296)
    (hreg : ∀ i, i < 8 → s.a i < 4294967296) :
    ∃ s2, stepFn s = .ok s2 ∧
      s2.a 0 = s.a 0 - 32 ∧
      (∀ i, i ≠ 0 → s2.a i = s.a i) ∧
      s2.d = s.d ∧ s2.sr = s.sr ∧
      s2.pc = mask32 (mask32 (s.pc + 2) + 2) ∧
      (∀ k, k < 8 → read32 s2.mem (s.a 0 - 32 + 4 * k) = s.a k) := by
  have hI : INST 0x48E0 = Opcode.MovemFrom := by decide
  have e1 : (0x48E0 : Nat) &&& 7 = 0 := by decide
  have hr : List.range 8 = [0, 1, 2, 3, 4, 5, 6, 7] := by rfl
  have l0 : ((255 : Nat) &&& 0x0001 <<< 0 ≠ 0) = True := by decide
  have l1 : ((255 : Nat) &&& 0x0001 <<< 1 ≠ 0) = True := by decide
  have l2 : ((255 : Nat) &&& 0x0001 <<< 2 ≠ 0) = True := by decide
  have l3 : ((255 : Nat) &&& 0x0001 <<< 3 ≠ 0) = True := by decide
  have l4 : ((255 : Nat) &&& 0x0001 <<< 4 ≠ 0) = True := by decide
  have l5 : ((255 : Nat) &&& 0x0001 <<< 5 ≠ 0) = True := by decide
  have l6 : ((255 : Nat) &&& 0x0001 <<< 6 ≠ 0) = True := by decide
  have l7 : ((255 : Nat) &&& 0x0001 <<< 7 ≠ 0) = True := by decide
  have h0x : ((255 : Nat) &&& 0x0100 <<< 0 ≠ 0) = False := by decide
  have h1x : ((255 : Nat) &&& 0x0100 <<< 1 ≠ 0) = False := by decide
  have h2x : ((255 : Nat) &&& 0x0100 <<< 2 ≠ 0) = False := by decide
  have h3x : ((255 : Nat) &&& 0x0100 <<< 3 ≠ 0) = False := by decide
  have h4x : ((255 : Nat) &&& 0x0100 <<< 4 ≠ 0) = False := by decide
  have h5x : ((255 : Nat) &&& 0x0100 <<< 5 ≠ 0) = False := by decide
  have h6x : ((255 : Nat) &&& 0x0100 <<< 6 ≠ 0) = False := by decide
  have h7x : ((255 : Nat) &&& 0x0100 <<< 7 ≠ 0) = False := by decide
  simp only [stepFn, hop, hI, execInst, e1, hbits, movemFromARegs, movemFromDRegs, hr,
    List.foldl, l0, l1, l2, l3, l4, l5, l6, l7, h0x, h1x, h2x, h3x, h4x, h5x, h6x, h7x,
    if_true, if_false, ite_true, ite_false]
  norm_num
  rw [show mask32 (s.a 0 + 4294967292) = s.a 0 - 4 from by unfold mask32; omega]
  rw [show mask32 (s.a 0 - 4 + 4294967292) = s.a 0 - 8 from by unfold mask32; omega]
  rw [show mask32 (s.a 0 - 8 + 4294967292) = s.a 0 - 12 from by unfold mask32; omega]
  rw [show mask32 (s.a 0 - 12 + 4294967292) = s.a 0 - 16 from by unfold mask32; omega]
  rw [show mask32 (s.a 0 - 16 + 4294967292) = s.a 0 - 20 from by unfold mask32; omega]
  rw [show mask32 (s.a 0 - 20 + 4294967292) = s.a 0 - 24 from by unfold mask32; omega]
  rw [show mask32 (s.a 0 - 24 + 4294967292) = s.a 0 - 28 from by unfold mask32; omega]
  rw [show mask32 (s.a 0 - 28 + 4294967292) = s.a 0 - 32 from by unfold mask32; omega]
  refine ⟨rfl, ?_, ?_⟩
  · intro i hi
    simp [Function.update_noteq hi]
  · intro k hk
    interval_cases k
    · rw [show s.a 0 - 32 + 4 * 0 = s.a 0 - 32 from by omega]
      rw [read32_write32_same _ _ _ (by omega), Nat.mod_eq_of_lt (hreg 0 (by norm_num))]
    · rw [show s.a 0 - 32 + 4 * 1 = s.a 0 - 28 from by omega]
      rw [read32_write32_ne _ (s.a 0 - 32) (s.a 0 - 28) _ (by omega) (by omega) (by omega)]
      rw [read32_write32_same _ _ _ (by omega), Nat.mod_eq_of_lt (hreg 1 (by norm_num))]
    · rw [show s.a 0 - 32 + 4 * 2 = s.a 0 - 24 from by omega]
      rw [read32_write32_ne _ (s.a 0 - 32) (s.a 0 - 24) _ (by omega) (by omega) (by omega)]
      rw [read32_write32_ne _ (s.a 0 - 28) (s.a 0 - 24) _ (by omega) (by omega) (by omega)]
      rw [read32_write32_same _ _ _ (by omega), Nat.mod_eq_of_lt (hreg 2 (by norm_num))]
    · rw [show s.a 0 - 32 + 4 * 3 = s.a 0 - 20 from by omega]
      rw [read32_write32_ne _ (s.a 0 - 32) (s.a 0 - 20) _ (by omega) (by omega) (by omega)]
      rw [read32_write32_ne _ (s.a 0 - 28) (s.a 0 - 20) _ (by omega) (by omega) (by omega)]
      rw [read32_write32_ne _ (s.a 0 - 24) (s.a 0 - 20) _ (by omega) (by omega) (by omega)]
      rw [read32_write32_same _ _ _ (by omega), Nat.mod_eq_of_lt (hreg 3 (by norm_num))]
    · rw [show s.a 0 - 32 + 4 * 4 = s.a 0 - 16 from by omega]
      rw [read32_write32_ne _ (s.a 0 - 32) (s.a 0 - 16) _ (by omega) (by omega) (by omega)]
      rw [read32_write32_ne _ (s.a 0 - 28) (s.a 0 - 16) _ (by omega) (by omega) (by omega)]
      rw [read32_write32_ne _ (s.a 0 - 24) (s.a 0 - 16) _ (by omega) (by omega) (by omega)]
      rw [read32_write32_ne _ (s.a 0 - 20) (s.a 0 - 16) _ (by omega) (by omega) (by omega)]
      rw [read32_write32_same _ _ _ (by omega), Nat.mod_eq_of_lt (hreg 4 (by norm_num))]
    · rw [show s.a 0 - 32 + 4 * 5 = s.a 0 - 12 from by omega]
      rw [read32_write32_ne _ (s.a 0 - 32) (s.a 0 - 12) _ (by omega) (by omega) (by omega)]
      rw [read32_write32_ne _ (s.a 0 - 28) (s.a 0 - 12) _ (by omega) (by omega) (by omega)]
      rw [read32_write32_ne _ (s.a 0 - 24) (s.a 0 - 12) _ (by omega) (by omega) (by omega)]
      rw [read32_write32_ne _ (s.a 0 - 20) (s.a 0 - 12) _ (by omega) (by omega) (by omega)]
      rw [read32_write32_ne _ (s.a 0 - 16) (s.a 0 - 12) _ (by omega) (by omega) (by omega)]
      rw [read32_write32_same _ _ _ (by omega), Nat.mod_eq_of_lt (hreg 5 (by norm_num))]
    · rw [show s.a 0 - 32 + 4 * 6 = s.a 0 - 8 from by omega]
      rw [read32_write32_ne _ (s.a 0 - 32) (s.a 0 - 8) _ (by omega) (by omega) (by omega)]
      rw [read32_write32_ne _ (s.a 0 - 28) (s.a 0 - 8) _ (by omega) (by omega) (by omega)]
      rw [read32_write32_ne _ (s.a 0 - 24) (s.a 0 - 8) _ (by omega) (by omega) (by omega)]
      rw [read32_write32_ne _ (s.a 0 - 20) (s.a 0 - 8) _ (by omega) (by omega) (by omega)]
      rw [read32_write32_ne _ (s.a 0 - 16) (s.a 0 - 8) _ (by omega) (by omega) (by omega)]
      rw [read32_write32_ne _ (s.a 0 - 12) (s.a 0 - 8) _ (by omega) (by omega) (by omega)]
      rw [read32_write32_same _ _ _ (by omega), Nat.mod_eq_of_lt (hreg 6 (by norm_num))]
    · rw [show s.a 0 - 32 + 4 * 7 = s.a 0 - 4 from by omega]
      rw [read32_write32_ne _ (s.a 0 - 32) (s.a 0 - 4) _ (by omega) (by omega) (by omega)]
      rw [read32_write32_ne _ (s.a 0 - 28) (s.a 0 - 4) _ (by omega) (by omega) (by omega)]
      rw [read32_write32_ne _ (s.a 0 - 24) (s.a 0 - 4) _ (by omega) (by omega) (by omega)]
      rw [read32_write32_ne _ (s.a 0 - 20) (s.a 0 - 4) _ (by omega) (by omega) (by omega)]
      rw [read32_write32_ne _ (s.a 0 - 16) (s.a 0 - 4) _ (by omega) (by omega) (by omega)]
      rw [read32_write32_ne _ (s.a 0 - 12) (s.a 0 - 4) _ (by omega) (by omega) (by omega)]
      rw [read32_write32_ne _ (s.a 0 - 8) (s.a 0 - 4) _ (by omega) (by omega) (by omega)]
      rw [read32_write32_same _ _ _ (by omega), Nat.mod_eq_of_lt (hreg 7 (by norm_num))]

/-- Witness for the amended C2 theorem: all hypotheses hold at `c2state`
(A0 = 0x1000 ≥ 32, every address register below 2^32), and the conclusion
follows by applying the theorem there. -/
theorem c2_movem_from_aregs_witness :
    ∃ s2, stepFn c2state = .ok s2 ∧
      s2.a 0 = c2state.a 0 - 32 ∧
      (∀ i, i ≠ 0 → s2.a i = c2state.a i) ∧
      s2.d = c2state.d ∧ s2.sr = c2state.sr ∧
      s2.pc = mask32 (mask32 (c2state.pc + 2) + 2) ∧
      (∀ k, k < 8 → read32 s2.mem (c2state.a 0 - 32 + 4 * k) = c2state.a k) :=
  c2_movem_from_aregs c2state (by decide) (by decide) (by decide) (by decide)
    (by decide)
